import Mathlib

/-!
# A verification model of the local rule-based scene-edit engine (`src/app/agent.py`)

This file gives a shallow embedding, in Lean 4, of the deterministic local
natural-language-to-scene-edit engine of the repository (`app/agent.py`), and
proves (or refutes) the specification claims about it.

Modelling conventions, used throughout:

* Python `float` values are modelled as real numbers (`ℝ`); floating-point
  rounding is outside the scope of the claims settled here, all numeric
  facts proved are exact-value facts.
* A Python scene dict `{"objects": [...]}` is modelled by `Scene`; each object
  dict by `Obj`.  A `params` dict is an association list in insertion order
  (Python dicts preserve insertion order; updating an existing key keeps its
  position, which the `setParam` model reproduces).  Param values are numbers
  or strings (`Value`), exactly the value space the data model of the spec
  allows.
* Missing transform vectors behave identically to empty ones under
  `_ensure_transform` (`setdefault` inserts the length-3 default, and an empty
  list is repaired to the same default), and no other code reads a transform
  vector without calling `_ensure_transform` first or building the transform
  itself; so `Transform` models each vector as a plain `List ℝ` where the
  empty list also stands for an absent key.
* Python exceptions are modelled with `Except PyErr`; code that cannot raise
  (given the value space of the model) is given a plain total type.
* In-place mutation of objects held inside the scene list is modelled by
  passing the list of target *indices* into the scene's object list and
  returning the updated scene, which is observationally equivalent because
  the Python target lists are lists of references into `spec["objects"]`.
* Python's `re` module and `str` methods are modelled by hand-written
  scanners over `List Char` implementing the semantics of the concrete
  patterns appearing in the source (leftmost match, greedy quantifiers,
  non-overlapping `findall`); ASCII case folding is assumed, which covers
  every string the keyword tables and the claims use.
-/

namespace Fludo

/-! ## Python string primitives -/

/-- Python `str.lower()` (ASCII case folding suffices for the model). -/
def lowerStr (s : String) : String := ⟨s.data.map Char.toLower⟩

/-- `n.isPrefixOf h` on char lists, as a `Bool`. -/
def listIsPrefixOf : List Char → List Char → Bool
  | [], _ => true
  | _ :: _, [] => false
  | c :: cs, d :: ds => c = d && listIsPrefixOf cs ds

/-- Python's substring test `needle in hay` on char lists.
    (Python's `"" in s` is `True`, matched by the base case.) -/
def listContains (needle : List Char) : List Char → Bool
  | [] => listIsPrefixOf needle []
  | c :: cs => listIsPrefixOf needle (c :: cs) || listContains needle cs

/-- Python's substring test `needle in hay` on strings. -/
def subStr (needle hay : String) : Bool := listContains needle.data hay.data

/-- Python's `\s` / `str.split()` whitespace class (ASCII fragment). -/
def isWs (c : Char) : Bool := c = ' ' || c = '\t' || c = '\n' || c = '\r' || c = '\x0b' || c = '\x0c'

/-- Python's `\w` word-character class (ASCII fragment: the model's texts are
    ASCII; keyword tables are all ASCII). -/
def isWordChar (c : Char) : Bool := c.isAlphanum || c = '_'

/-- `str.split()` with no argument: split on whitespace runs, dropping empties. -/
def splitWsAux : List Char → List Char → List (List Char)
  | [], acc => if acc.isEmpty then [] else [acc.reverse]
  | c :: cs, acc =>
      if isWs c then
        if acc.isEmpty then splitWsAux cs [] else acc.reverse :: splitWsAux cs []
      else splitWsAux cs (c :: acc)

/-- Join char-list words with single spaces. -/
def joinSpace : List (List Char) → List Char
  | [] => []
  | [w] => w
  | w :: ws => w ++ ' ' :: joinSpace ws

/-- `_normalize(text)`: `" ".join(text.lower().split())`. -/
def pyNormalize (text : String) : String :=
  ⟨joinSpace (splitWsAux (lowerStr text).data [])⟩

/-! ## Number extraction (`re.findall(r"[-+]?\d*\.?\d+", text)` and friends) -/

/-- Maximal run of decimal digits. -/
def takeDigits : List Char → List Char × List Char
  | [] => ([], [])
  | c :: cs =>
      if c.isDigit then
        let (ds, rest) := takeDigits cs
        (c :: ds, rest)
      else ([], c :: cs)

/-- Greedy match of `[-+]?\d*\.?\d+` at the head of the input; returns the
    matched token and the remaining input.  Backtracking of the regex engine
    collapses to: take an optional sign, a maximal digit run, then a dot only
    when a digit follows it (otherwise `\.?` backtracks to empty and `\d+`
    re-uses the digit run). -/
def matchNumAt (cs : List Char) : Option (List Char × List Char) :=
  let (sign, rest) :=
    match cs with
    | c :: cs' => if c = '+' || c = '-' then ([c], cs') else (([] : List Char), c :: cs')
    | [] => ([], [])
  let (ds1, rest1) := takeDigits rest
  match rest1 with
  | '.' :: rest2 =>
      let (ds2, rest3) := takeDigits rest2
      if ds2.isEmpty then
        if ds1.isEmpty then none else some (sign ++ ds1, rest1)
      else some (sign ++ ds1 ++ '.' :: ds2, rest3)
  | _ => if ds1.isEmpty then none else some (sign ++ ds1, rest1)

/-- `re.findall` of the number pattern: scan left to right, matches are
    non-overlapping, the scan resumes right after each match. -/
def numTokensAux : ℕ → List Char → List (List Char)
  | 0, _ => []
  | _ + 1, [] => []
  | fuel + 1, c :: cs =>
      match matchNumAt (c :: cs) with
      | some (tok, rest) => tok :: numTokensAux fuel rest
      | none => numTokensAux fuel cs

/-- The raw number tokens of a text, left to right. -/
def numTokens (s : String) : List (List Char) := numTokensAux (s.length + 1) s.data

/-- Value of a digit run. -/
def digitsVal (ds : List Char) : ℕ := ds.foldl (fun a c => 10 * a + (c.toNat - '0'.toNat)) 0

/-- Exact value of a token produced by `matchNumAt` (sign, integer digits,
    optional fractional digits). -/
noncomputable def tokenVal (tok : List Char) : ℝ :=
  let (neg, rest) :=
    match tok with
    | '+' :: r => (false, r)
    | '-' :: r => (true, r)
    | r => (false, r)
  let (ds1, rest1) := takeDigits rest
  let frac : ℝ :=
    match rest1 with
    | '.' :: ds2 => (digitsVal ds2 : ℝ) / (10 : ℝ) ^ ds2.length
    | _ => 0
  let mag : ℝ := (digitsVal ds1 : ℝ) + frac
  if neg then -mag else mag

/-- `_extract_numbers(text)`. -/
noncomputable def extractNumbers (s : String) : List ℝ := (numTokens s).map tokenVal

/-- Maximal run of characters satisfying `p`. -/
def takeWhileList (p : Char → Bool) : List Char → List Char × List Char
  | [] => ([], [])
  | c :: cs =>
      if p c then
        let (xs, rest) := takeWhileList p cs
        (c :: xs, rest)
      else ([], c :: cs)

/-- The separator `\s*[,\s]+` of the position-triplet pattern: at least one
    whitespace-or-comma character, taken greedily (the following number token
    starts with a character outside the class, so greed is harmless). -/
def matchTripletSep (cs : List Char) : Option (List Char) :=
  let (run, rest) := takeWhileList (fun c => isWs c || c = ',') cs
  if run.isEmpty then none else some rest

/-- Match `(?:at|to)\s*\(?\s*N\s*[,\s]+N\s*[,\s]+N` at the head of the input,
    returning the three captured number tokens. -/
def matchTripletAt (cs : List Char) : Option (List Char × List Char × List Char) :=
  let kw : Option (List Char) :=
    if listIsPrefixOf ['a', 't'] cs then some (cs.drop 2)
    else if listIsPrefixOf ['t', 'o'] cs then some (cs.drop 2)
    else none
  match kw with
  | none => none
  | some rest0 =>
      let rest1 := (takeWhileList isWs rest0).2
      let rest2 := match rest1 with | '(' :: r => r | r => r
      let rest3 := (takeWhileList isWs rest2).2
      match matchNumAt rest3 with
      | none => none
      | some (n1, r1) =>
          match matchTripletSep r1 with
          | none => none
          | some r2 =>
              match matchNumAt r2 with
              | none => none
              | some (n2, r3) =>
                  match matchTripletSep r3 with
                  | none => none
                  | some r4 =>
                      match matchNumAt r4 with
                      | none => none
                      | some (n3, _) => some (n1, n2, n3)

/-- `re.search` over starting positions, leftmost first. -/
def searchTriplet : ℕ → List Char → Option (List Char × List Char × List Char)
  | 0, _ => none
  | _ + 1, [] => none
  | fuel + 1, c :: cs =>
      match matchTripletAt (c :: cs) with
      | some g => some g
      | none => searchTriplet fuel cs

/-- `_extract_position_triplet(text)`. -/
noncomputable def extractPositionTriplet (s : String) : Option (List ℝ) :=
  match searchTriplet (s.length + 1) s.data with
  | some (a, b, c) => some [tokenVal a, tokenVal b, tokenVal c]
  | none => none

/-! ## URL extraction (`re.findall(r"https?://\S+", user_text)`) -/

/-- Match `https?://\S+` at the head of the input. -/
def matchUrlAt (cs : List Char) : Option (List Char × List Char) :=
  let pre : Option (List Char × List Char) :=
    if listIsPrefixOf "https://".data cs then some ("https://".data, cs.drop 8)
    else if listIsPrefixOf "http://".data cs then some ("http://".data, cs.drop 7)
    else none
  match pre with
  | none => none
  | some (p, rest) =>
      let (body, rest') := takeWhileList (fun c => !isWs c) rest
      if body.isEmpty then none else some (p ++ body, rest')

def findUrlsAux : ℕ → List Char → List (List Char)
  | 0, _ => []
  | _ + 1, [] => []
  | fuel + 1, c :: cs =>
      match matchUrlAt (c :: cs) with
      | some (tok, rest) => tok :: findUrlsAux fuel rest
      | none => findUrlsAux fuel cs

/-- All URLs of the raw user text, left to right. -/
def findUrls (s : String) : List String :=
  (findUrlsAux (s.length + 1) s.data).map (⟨·⟩)

/-! ## Stable sorts (model of Python's `sorted`/`list.sort`, which are stable) -/

/-- Insert `x` into a list already sorted by strictly descending `key`,
    after every element of key ≥ its own (stability). -/
def insDescBy (key : α → ℕ) (x : α) : List α → List α
  | [] => [x]
  | y :: ys => if key y < key x then x :: y :: ys else y :: insDescBy key x ys

/-- Stable sort, descending by `key`. -/
def sortDescBy (key : α → ℕ) (l : List α) : List α :=
  l.foldl (fun acc x => insDescBy key x acc) []

/-- Insert `x` after every element of key ≤ its own (stability, ascending). -/
def insAscBy (key : α → ℕ) (x : α) : List α → List α
  | [] => [x]
  | y :: ys => if key x < key y then x :: y :: ys else y :: insAscBy key x ys

/-- Stable sort, ascending by `key`. -/
def sortAscBy (key : α → ℕ) (l : List α) : List α :=
  l.foldl (fun acc x => insAscBy key x acc) []

/-! ## Keyword tables (`COLOR_KEYWORDS`, `TYPE_SYNONYMS`, ...) in source order -/

def COLOR_KEYWORDS : List (String × String) :=
  [("bright red", "#ff4b5c"), ("red", "#ff4b5c"), ("blue", "#3d7eff"),
   ("navy", "#2b4c9a"), ("light blue", "#7ab8ff"), ("green", "#34c759"),
   ("lime", "#a8f152"), ("emerald", "#2ecc71"), ("yellow", "#ffd60a"),
   ("gold", "#f5c542"), ("orange", "#ff8c42"), ("purple", "#a855f7"),
   ("violet", "#8f5bff"), ("pink", "#ff5fa2"), ("magenta", "#ff2d95"),
   ("cyan", "#4dd0e1"), ("aqua", "#4dd0e1"), ("turquoise", "#2ad7b6"),
   ("white", "#f5f5f5"), ("black", "#111111"), ("gray", "#8e8e93"),
   ("grey", "#8e8e93"), ("silver", "#b0b8c5"), ("bronze", "#b07d3c"),
   ("copper", "#b87333"), ("teal", "#3cc1b3"), ("brown", "#8b5a2b")]

/-- `sorted(COLOR_KEYWORDS.items(), key=lambda kv: -len(kv[0]))`. -/
def sortedColorKeys : List (String × String) :=
  sortDescBy (fun kv => kv.1.length) COLOR_KEYWORDS

def TYPE_SYNONYMS : List (String × List String) :=
  [("box", ["box", "cube", "block", "rect", "rectangle", "rectangular"]),
   ("cylinder", ["cylinder", "tube", "pipe", "column"]),
   ("sphere", ["sphere", "ball", "orb", "globe"]),
   ("plane", ["plane", "sheet", "panel", "floor", "ground", "surface"]),
   ("cone", ["cone", "pyramid"]),
   ("torus", ["torus", "ring", "donut", "doughnut"]),
   ("torusknot", ["torus knot", "torusknot", "knot"]),
   ("external_model", ["model", "import", "mesh", "gltf", "obj", "asset"]),
   ("assembly", ["assembly", "mechanism", "robot hand", "robotic hand",
                 "gripper", "end effector", "bicycle", "bike"])]

def ORDINAL_KEYWORDS : List (String × Int) :=
  [("first", 0), ("1st", 0), ("second", 1), ("2nd", 1), ("third", 2),
   ("3rd", 2), ("fourth", 3), ("4th", 3), ("fifth", 4), ("5th", 4),
   ("last", -1), ("final", -1), ("previous", -1), ("current", -1)]

def SCALE_UP_WORDS : List String :=
  ["bigger", "larger", "increase", "wider", "taller", "longer", "scale up", "expand", "grow"]
def SCALE_DOWN_WORDS : List String :=
  ["smaller", "shorter", "narrower", "reduce", "decrease", "shrink", "scale down", "thin"]
def WIDTH_POSITIVE : List String := ["wider", "thicker", "broader"]
def WIDTH_NEGATIVE : List String := ["narrower", "thinner", "slimmer"]
def HEIGHT_POSITIVE : List String := ["taller", "higher", "raise", "elevate"]
def HEIGHT_NEGATIVE : List String := ["shorter", "lower", "shorten", "flatten"]
def DEPTH_POSITIVE : List String := ["longer", "deeper", "extend", "stretch"]
def DEPTH_NEGATIVE : List String := ["shorter", "shallower", "trim"]

def DIMENSION_KEYWORDS : List String :=
  ["width", "wide", "depth", "deep", "length", "long", "height", "tall",
   "radius", "rad", "diameter", "tube", "minor", "major", "size", "thick",
   "thin", "thickness", "scale"]

def DIRECTION_KEYWORDS : List (String × (ℝ × ℝ × ℝ)) :=
  [("up", (0, 0, 1)), ("upwards", (0, 0, 1)), ("raise", (0, 0, 1)),
   ("higher", (0, 0, 1)), ("above", (0, 0, 1)), ("down", (0, 0, -1)),
   ("lower", (0, 0, -1)), ("drop", (0, 0, -1)), ("below", (0, 0, -1)),
   ("beneath", (0, 0, -1)), ("under", (0, 0, -1)), ("left", (-1, 0, 0)),
   ("right", (1, 0, 0)), ("forward", (0, 1, 0)), ("ahead", (0, 1, 0)),
   ("front", (0, 1, 0)), ("back", (0, -1, 0)), ("backward", (0, -1, 0)),
   ("toward", (0, 1, 0)), ("towards", (0, 1, 0))]

def ROTATION_AXIS_HINTS : List (String × ℕ) :=
  [("x", 0), ("x-axis", 0), ("roll", 0), ("y", 1), ("y-axis", 1), ("yaw", 1),
   ("z", 2), ("z-axis", 2), ("pitch", 2)]

def ADD_KEYWORDS : List String :=
  ["add", "include", "spawn", "create", "new", "another", "place", "insert", "generate"]
def CLONE_KEYWORDS : List String := ["duplicate", "copy", "clone"]
def REPLACE_KEYWORDS : List String := ["replace", "swap", "switch"]
def ADD_PHRASES : List String :=
  ["make a", "make an", "build a", "build another", "create a", "create an"]

/-! ## Color mentions (`_color_mentions`: `\b`-anchored `finditer` with
consumed-span bookkeeping) -/

/-- `re.finditer(r"\bKEY\b", hay)` for a literal key: the spans of the
    non-overlapping boundary-anchored occurrences, left to right.
    `prevWord` says whether the character before the current position is a
    word character. -/
def finditerWordAux (key : List Char) : ℕ → List Char → ℕ → Bool → List (ℕ × ℕ)
  | 0, _, _, _ => []
  | _ + 1, [], _, _ => []
  | fuel + 1, c :: cs, pos, prevWord =>
      let here := c :: cs
      let after := here.drop key.length
      let boundaryAfter := match after with | [] => true | d :: _ => !isWordChar d
      if listIsPrefixOf key here && !prevWord && boundaryAfter && !key.isEmpty then
        (pos, pos + key.length) ::
          finditerWordAux key fuel after (pos + key.length)
            (isWordChar (key.getLastD ' '))
      else
        finditerWordAux key fuel cs (pos + 1) (isWordChar c)

def finditerWord (key hay : List Char) : List (ℕ × ℕ) :=
  finditerWordAux key (hay.length + 1) hay 0 false

/-- `any(used[i] for i in range(start, end))` where `used` is kept as the
    list of already-consumed spans. -/
def spanUsed (used : List (ℕ × ℕ)) (s e : ℕ) : Bool :=
  used.any (fun u => max u.1 s < min u.2 e)

/-- `_color_mentions(text)`: longest color names first, spans consumed so
    shorter names never re-match inside them, result sorted by position. -/
def colorMentionsChar (lowered : List Char) : List (ℕ × String) :=
  let step := fun (acc : List (ℕ × String) × List (ℕ × ℕ)) (kv : String × String) =>
    (finditerWord kv.1.data lowered).foldl
      (fun (a : List (ℕ × String) × List (ℕ × ℕ)) span =>
        if spanUsed a.2 span.1 span.2 then a
        else (a.1 ++ [(span.1, kv.2)], span :: a.2))
      acc
  sortAscBy (·.1) (sortedColorKeys.foldl step ([], [])).1

def colorMentions (text : String) : List (ℕ × String) :=
  colorMentionsChar (lowerStr text).data

/-- `_colors_in_text(text)` (a Python set; the model keeps the list, every
    use is a membership test). -/
def colorsInText (text : String) : List String := (colorMentions text).map (·.2)

/-- `_color_from_text(text)`: first (longest-first) color name occurring as a
    plain substring. -/
def colorFromText (text : String) : Option String :=
  let lowered := lowerStr text
  (sortedColorKeys.find? (fun kv => subStr kv.1 lowered)).map (·.2)

/-- `_match_type(type_name, text)`. -/
def matchType (typeName : String) (text : String) : Bool :=
  let synonyms := ((TYPE_SYNONYMS.find? (·.1 = typeName)).map (·.2)).getD [typeName]
  synonyms.any (fun w => subStr w text)

/-! ## Scene data model -/

/-- A param value: Python dict values reaching the engine are numbers or
    strings (the value space §3 of the spec gives to `params`). -/
inductive Value where
  | num (r : ℝ)
  | str (s : String)

/-- A transform vector slot: a list of numbers of any length (possibly
    malformed — wrong length; an absent key behaves as the empty list, see
    the header), or a string.  The string case is reachable in the engine
    itself: two composite builders pass a color string as the positional
    `rot` argument of their `add_box` helper. -/
inductive TVec where
  | vec (v : List ℝ)
  | strv (s : String)

/-- Python `len` of a transform slot. -/
def TVec.len : TVec → ℕ
  | .vec v => v.length
  | .strv s => s.length

structure Transform where
  position : TVec
  rotation : TVec
  scale : TVec

structure Obj where
  id : String
  type : String
  params : List (String × Value)
  transform : Transform

/-- `{"objects": [...]}`. -/
structure Scene where
  objects : List Obj

instance : Inhabited Transform := ⟨⟨.vec [0, 0, 0], .vec [0, 0, 0], .vec [1, 1, 1]⟩⟩
instance : Inhabited Obj := ⟨"", "", [], default⟩
instance : Inhabited Value := ⟨.num 0⟩

/-- Python exceptions the modelled code can raise. -/
inductive PyErr where
  | valueError
  | typeError

/-- Object (dict) equality is Python value equality; undecidable over `ℝ`, so
    classical (it is only reached by `list.index` / `list.remove`, never on a
    path any concrete evaluation in this file takes). -/
noncomputable instance : DecidableEq Obj := fun _ _ => Classical.dec _

noncomputable instance : DecidableEq ℝ := fun _ _ => Classical.dec _

/-! ## Params dictionary operations -/

def getParamV (ps : List (String × Value)) (k : String) : Option Value :=
  (ps.find? (·.1 = k)).map (·.2)

def hasParam (ps : List (String × Value)) (k : String) : Bool :=
  ps.any (·.1 = k)

/-- Python dict write: overwrite keeps the key's position, a new key is
    appended. -/
def setParam (ps : List (String × Value)) (k : String) (v : Value) :
    List (String × Value) :=
  if hasParam ps k then ps.map (fun p => if p.1 = k then (k, v) else p)
  else ps ++ [(k, v)]

/-- Python `str(value)` restricted to the color comparisons of the engine: a
    stringified number is never equal to a `#rrggbb` table value nor empty,
    so a fixed placeholder is observationally equivalent. -/
def pyColorStr : Option Value → String
  | some (.str s) => s
  | some (.num _) => "<number>"
  | none => ""

/-- Model of Python `float(x)` on param values.  `float(str)` accepts a
    decimal literal (optional sign, digits with optional fraction and
    exponent) and raises `ValueError` otherwise; the special `inf`/`nan`
    spellings are outside the model's value space and are mapped to the
    error case as well. -/
noncomputable def parseFloat? (s : String) : Option ℝ :=
  let cs := (takeWhileList isWs s.data).2
  let (neg, cs) :=
    match cs with
    | '+' :: r => (false, r)
    | '-' :: r => (true, r)
    | r => (false, r)
  let (ds1, cs) := takeDigits cs
  let (frac, fracLen, cs) :=
    match cs with
    | '.' :: r =>
        let (ds2, r2) := takeDigits r
        ((digitsVal ds2 : ℝ), ds2.length, r2)
    | r => (0, 0, r)
  if ds1.isEmpty && fracLen = 0 then none
  else
    let (expOk, expVal, cs) :=
      match cs with
      | 'e' :: r | 'E' :: r =>
          let (eneg, r1) :=
            match r with
            | '+' :: r' => (false, r')
            | '-' :: r' => (true, r')
            | r' => (false, r')
          let (eds, r2) := takeDigits r1
          if eds.isEmpty then (false, (0 : ℤ), r2)
          else (true, if eneg then -(digitsVal eds : ℤ) else (digitsVal eds : ℤ), r2)
      | r => (true, 0, r)
    let cs := (takeWhileList isWs cs).2
    if expOk && cs.isEmpty then
      let mag : ℝ :=
        ((digitsVal ds1 : ℝ) + frac / (10 : ℝ) ^ fracLen) * (10 : ℝ) ^ expVal
      some (if neg then -mag else mag)
    else none

noncomputable def pyFloat : Value → Except PyErr ℝ
  | .num r => .ok r
  | .str s =>
      match parseFloat? s with
      | some r => .ok r
      | none => .error .valueError

/-! ## Decimal id suffixes (`f"{base}{index}"`) -/

/-- Little-endian decimal digits of `n` (fuelled; `fuel ≥ n` suffices). -/
def decDigits : ℕ → ℕ → List ℕ
  | 0, _ => []
  | fuel + 1, n => if n = 0 then [] else n % 10 :: decDigits fuel (n / 10)

/-- The decimal spelling of a natural number, as Python's `str`/f-string
    formatting produces it. -/
def decRepr (n : ℕ) : String :=
  if n = 0 then "0" else ⟨((decDigits n n).map Nat.digitChar).reverse⟩

/-! ## `_generate_id` -/

/-- The set of ids `_generate_id` treats as taken: every non-empty id string
    of the scene (`if spec:` is falsy exactly for the `None` case of the
    model). -/
def usedIds : Option Scene → List String
  | none => []
  | some s => (s.objects.map (·.id)).filter (· ≠ "")

/-- The `while candidate in existing` loop.  `fuel` bounds the number of
    candidate probes; `|existing| + 1` probes always suffice (shown later). -/
def genIdAux (base : String) (existing : List String) : ℕ → ℕ → String
  | 0, index => base ++ decRepr index
  | fuel + 1, index =>
      let candidate := base ++ decRepr index
      if candidate ∈ existing then genIdAux base existing fuel (index + 1)
      else candidate

/-- `_generate_id(base, spec)`. -/
def generateId (base : String) (spec : Option Scene) : String :=
  let existing := usedIds spec
  genIdAux base existing (existing.length + 1) 1

/-! ## `_ensure_transform` -/

/-- `[float(v[i]) if i < len(v) else d for i in range(3)]`, applied only when
    the length is not 3. -/
def repairVec (v : List ℝ) (d : ℝ) : List ℝ :=
  if v.length = 3 then v else [v.getD 0 d, v.getD 1 d, v.getD 2 d]

/-- Python `float` of one character of a string sitting in a vector slot. -/
def charFloat (c : Char) : Except PyErr ℝ :=
  if c.isDigit then .ok ((c.toNat - '0'.toNat : ℕ) : ℝ) else .error .valueError

/-- One slot of `_ensure_transform`: a slot of length exactly 3 is left
    untouched (even a string one), anything else is rebuilt as
    `[float(x[i]) if i < len(x) else d for i in range(3)]`. -/
def ensureSlot (t : TVec) (d : ℝ) : Except PyErr TVec :=
  match t with
  | .vec v => .ok (.vec (repairVec v d))
  | .strv s =>
      if s.length = 3 then .ok (.strv s)
      else do
        let cs := s.data.take 3
        let vals ← cs.mapM charFloat
        .ok (.vec (vals ++ List.replicate (3 - s.length) d))

/-- `_ensure_transform(obj)`: repairs the three transform vectors in place
    (the repaired object stands for both the mutated `obj` and the returned
    transform); raises `ValueError` when a string slot of length ≠ 3 holds a
    non-digit character. -/
def ensureTransform (o : Obj) : Except PyErr Obj := do
  let p ← ensureSlot o.transform.position 0
  let r ← ensureSlot o.transform.rotation 0
  let sc ← ensureSlot o.transform.scale 1
  return { o with transform := ⟨p, r, sc⟩ }

def defaultTransform : Transform := ⟨.vec [0, 0, 0], .vec [0, 0, 0], .vec [1, 1, 1]⟩

/-- Read a length-3 numeric slot (the shape every slot has after a
    successful `_ensure_transform`, except the untouched length-3 string). -/
def TVec.list : TVec → List ℝ
  | .vec v => v
  | .strv _ => []

/-- `[f(float(v)) for v in slot]`: iterating a slot maps over the numbers of
    a list or the characters of a string. -/
def slotMapE (t : TVec) (f : ℝ → ℝ) : Except PyErr (List ℝ) :=
  match t with
  | .vec v => .ok (v.map f)
  | .strv s => (s.data.mapM charFloat).map (·.map f)

/-- Read `slot[i]` as a float (`float(slot[i]) `): a number, or a one-character
    string converted by `float`. -/
def slotGetFloatE (t : TVec) (i : ℕ) (d : ℝ) : Except PyErr ℝ :=
  match t with
  | .vec v => .ok (v.getD i d)
  | .strv s => charFloat (s.data.getD i ' ')

/-- `slot[i] = x`: item assignment, a `TypeError` on a string slot. -/
def slotSetE (t : TVec) (i : ℕ) (x : ℝ) : Except PyErr TVec :=
  match t with
  | .vec v => .ok (.vec (v.set i x))
  | .strv _ => .error .typeError

/-- Build `[slot[0] + a, slot[1] + b, slot[2] + c]`: on a string slot the
    first element already raises `TypeError` (`str + float`), so the later
    reads never happen. -/
def slotAdd3E (t : TVec) (a b c : ℝ) : Except PyErr (List ℝ)  :=
  match t with
  | .vec v => .ok [v.getD 0 0 + a, v.getD 1 0 + b, v.getD 2 0 + c]
  | .strv _ => .error .typeError

/-! ## `_find_targets` -/

/-- `color_order`: first-mention index per color
    (`color_order.setdefault(color, idx)`). -/
def colorOrderList (text : String) : List (String × ℕ) :=
  (colorMentions text).enum.foldl
    (fun acc p =>
      if (acc.find? (·.1 = p.2.2)).isSome then acc else acc ++ [(p.2.2, p.1)])
    []

/-- The score the resolver assigns to the object at position `idx`. -/
def targetScore (numObjects : ℕ) (lowered : String) (textColors : List String)
    (colorOrder : List (String × ℕ)) (idx : ℕ) (obj : Obj) : ℕ :=
  let objId := lowerStr obj.id
  let objType := lowerStr obj.type
  let s1 := if objId ≠ "" ∧ subStr objId lowered then 5 else 0
  let s2 := if objType ≠ "" ∧ matchType objType lowered then 3 else 0
  let objColor := lowerStr (pyColorStr (getParamV obj.params "color"))
  let s3 :=
    if objColor ≠ "" then
      match (colorOrder.find? (·.1 = objColor)).map (·.2) with
      | some orderIdx => max 1 (6 - min orderIdx 5)
      | none => if objColor ∈ textColors then 3 else 0
    else 0
  let s4 := ORDINAL_KEYWORDS.foldl
    (fun acc wk =>
      if subStr wk.1 lowered then
        let targetIndex : ℕ := if 0 ≤ wk.2 then wk.2.toNat else numObjects - 1
        if targetIndex = idx then acc + 2 else acc
      else acc)
    0
  s1 + s2 + s3 + s4

/-- `_find_targets(spec, text, fallback=...)`, returning the positions of
    the selected objects in `spec["objects"]` (the Python function returns
    the list of the object references themselves, in this order). -/
def findTargets (spec : Option Scene) (text : String) (fallback : Bool) :
    List ℕ :=
  match spec with
  | none => []
  | some s =>
      if s.objects.isEmpty then []
      else
        let lowered := lowerStr text
        let textColors := colorsInText text
        let colorOrder := colorOrderList text
        let scored := s.objects.enum.map
          (fun p => (targetScore s.objects.length lowered textColors colorOrder p.1 p.2, p.1))
        let hits := scored.filter (fun sc => 0 < sc.1)
        if !hits.isEmpty then (sortDescBy (·.1) hits).map (·.2)
        else if fallback then [s.objects.length - 1]
        else []

/-! ## Scene updates at target indices -/

/-- Replace the element at position `i` by `f` of it (identity out of range);
    models an in-place mutation of the object the Python target list aliases. -/
def modifyAt (f : Obj → Obj) : ℕ → List Obj → List Obj
  | _, [] => []
  | 0, o :: os => f o :: os
  | n + 1, o :: os => o :: modifyAt f n os

def updObjAt (s : Scene) (i : ℕ) (f : Obj → Obj) : Scene :=
  ⟨modifyAt f i s.objects⟩

/-- The object a target index denotes. -/
def objAt (s : Scene) (i : ℕ) : Obj := s.objects.getD i default

/-! ## `_apply_color_change` -/

noncomputable def applyColorChange (s : Scene) (targets : List ℕ)
    (text : String) : Scene × Bool :=
  let mentions := colorMentions text
  if mentions.isEmpty then (s, false)
  else
    let color := (mentions.getLastD (0, "")).2
    targets.foldl
      (fun acc i =>
        let o := objAt acc.1 i
        let same : Bool :=
          match getParamV o.params "color" with
          | some (.str c) => c == color
          | _ => false
        if same then acc
        else (updObjAt acc.1 i
                (fun o => { o with params := setParam o.params "color" (.str color) }),
              true))
      (s, false)

/-! ## `_adjust_param` and `_apply_dimension_change` -/

noncomputable def adjustParam (ps : List (String × Value)) (key : String)
    (numbers : List ℝ) (up down : Bool) :
    Except PyErr (List (String × Value) × Bool) := do
  if !hasParam ps key then return (ps, false)
  let current ← pyFloat ((getParamV ps key).getD (.num 1.0))
  if !numbers.isEmpty then
    return (setParam ps key (.num (max 0.001 (numbers.headD 0))), true)
  if up then
    return (setParam ps key (.num (max 0.001 (current * 1.25))), true)
  if down then
    return (setParam ps key (.num (max 0.001 (current * 0.8))), true)
  return (ps, false)

/-- One `changed |= _adjust_param(params, key, ...)` step on the object at
    index `i`. -/
noncomputable def adjustStep (i : ℕ) (key : String) (numbers : List ℝ)
    (up down : Bool) (acc : Scene × Bool) : Except PyErr (Scene × Bool) := do
  let o := objAt acc.1 i
  let (ps, c) ← adjustParam o.params key numbers up down
  return (updObjAt acc.1 i (fun o => { o with params := ps }), acc.2 || c)

/-- The per-text trigger flags of `_apply_dimension_change`. -/
structure DimFlags where
  scaleUp : Bool
  scaleDown : Bool
  widthUp : Bool
  widthDown : Bool
  heightUp : Bool
  heightDown : Bool
  depthUp : Bool
  depthDown : Bool

def dimFlags (low : String) : DimFlags :=
  ⟨SCALE_UP_WORDS.any (subStr · low), SCALE_DOWN_WORDS.any (subStr · low),
   WIDTH_POSITIVE.any (subStr · low), WIDTH_NEGATIVE.any (subStr · low),
   HEIGHT_POSITIVE.any (subStr · low), HEIGHT_NEGATIVE.any (subStr · low),
   DEPTH_POSITIVE.any (subStr · low), DEPTH_NEGATIVE.any (subStr · low)⟩

/-- The `_adjust_param` chain one target contributes, by object type. -/
noncomputable def dimTypeAdjust (low : String) (f : DimFlags) (numbers : List ℝ)
    (i : ℕ) (acc : Scene × Bool) : Except PyErr (Scene × Bool) := do
  let kw := fun (k : String) (b : Bool) => if subStr k low || b then numbers else []
  let otype := (objAt acc.1 i).type
  if otype = "box" then
    let acc ← adjustStep i "width" (kw "width" (f.widthUp || f.widthDown))
      (f.widthUp || f.scaleUp) (f.widthDown || f.scaleDown) acc
    let acc ← adjustStep i "depth" (kw "depth" (f.depthUp || f.depthDown))
      (f.depthUp || f.scaleUp) (f.depthDown || f.scaleDown) acc
    adjustStep i "height" (kw "height" (f.heightUp || f.heightDown))
      (f.heightUp || f.scaleUp) (f.heightDown || f.scaleDown) acc
  else if otype = "cylinder" then
    let acc ← adjustStep i "radius" (kw "radius" (f.widthUp || f.widthDown))
      (f.widthUp || f.scaleUp) (f.widthDown || f.scaleDown) acc
    adjustStep i "depth" (kw "depth" (f.heightUp || f.heightDown))
      (f.heightUp || f.scaleUp) (f.heightDown || f.scaleDown) acc
  else if otype = "sphere" then
    adjustStep i "radius" numbers f.scaleUp f.scaleDown acc
  else if otype = "cone" then
    let acc ← adjustStep i "radius" (kw "radius" (f.widthUp || f.widthDown))
      (f.widthUp || f.scaleUp) (f.widthDown || f.scaleDown) acc
    adjustStep i "height" (kw "height" (f.heightUp || f.heightDown))
      (f.heightUp || f.scaleUp) (f.heightDown || f.scaleDown) acc
  else if otype = "torus" || otype = "torusknot" then
    let acc ← adjustStep i "radius" (kw "radius" (f.scaleUp || f.scaleDown))
      f.scaleUp f.scaleDown acc
    adjustStep i "tube" (kw "tube" (f.widthUp || f.widthDown))
      (f.widthUp || f.scaleUp) (f.widthDown || f.scaleDown) acc
  else if otype = "plane" then
    adjustStep i "size" numbers f.scaleUp f.scaleDown acc
  else
    return acc

/-- The in-loop `scale` fallback of `_apply_dimension_change`: scales every
    target's transform uniformly when nothing changed yet. -/
noncomputable def dimScaleFallback (low : String) (f : DimFlags)
    (numbers : List ℝ) (targets : List ℕ) (acc : Scene × Bool) :
    Except PyErr (Scene × Bool) :=
  if !acc.2 && (f.scaleUp || f.scaleDown) && subStr "scale" low then do
    let factor := if !numbers.isEmpty then numbers.headD 0
                  else if f.scaleUp then 1.25 else 0.8
    let s2 ← targets.foldlM
      (fun s2 j => do
        let o' ← ensureTransform (objAt s2 j)
        let sc ← slotMapE o'.transform.scale (fun v => max 0.01 (v * factor))
        pure (updObjAt s2 j (fun _ => { o' with transform.scale := .vec sc })))
      acc.1
    pure (s2, true)
  else pure acc

noncomputable def applyDimensionChange (s : Scene) (targets : List ℕ)
    (text : String) (numbers : List ℝ) : Except PyErr (Scene × Bool) :=
  let low := lowerStr text
  let f := dimFlags low
  targets.foldlM
    (fun acc i => do
      let acc ← dimTypeAdjust low f numbers i acc
      dimScaleFallback low f numbers targets acc)
    (s, false)

/-! ## `_apply_directional_move` -/

def MOVE_TRIGGERS : List String :=
  ["move", "shift", "slide", "raise", "lower", "position", "place"]

noncomputable def applyDirectionalMove (s : Scene) (targets : List ℕ)
    (text : String) (numbers : List ℝ) : Except PyErr (Scene × Bool) :=
  let low := lowerStr text
  if !(MOVE_TRIGGERS.any (subStr · low)) then pure (s, false)
  else
    match extractPositionTriplet low with
    | some tri => do
        let s' ← targets.foldlM
          (fun s2 i => do
            let o' ← ensureTransform (objAt s2 i)
            pure (updObjAt s2 i (fun _ => { o' with transform.position := .vec tri })))
          s
        pure (s', !targets.isEmpty)
    | none => do
        let delta := numbers.headD 1.0
        let hit := DIRECTION_KEYWORDS.any (fun kv => subStr kv.1 low)
        let s' ← targets.foldlM
          (fun s2 i => do
            let o' ← ensureTransform (objAt s2 i)
            let pos ← DIRECTION_KEYWORDS.foldlM
              (fun (p : TVec) kv =>
                if subStr kv.1 low then
                  (slotAdd3E p (kv.2.1 * delta) (kv.2.2.1 * delta)
                    (kv.2.2.2 * delta)).map .vec
                else pure p)
              o'.transform.position
            pure (updObjAt s2 i (fun _ => { o' with transform.position := pos })))
          s
        pure (s', !targets.isEmpty && hit)

/-! ## `_apply_rotation_change` -/

def rotationTrigger (low : String) : Bool :=
  ["rotate", "rotation", "twist", "spin", "turn"].any (subStr · low)

/-- First axis hint of the table occurring in the text, default `1` (Y). -/
def rotationAxisOf (low : String) : ℕ :=
  ((ROTATION_AXIS_HINTS.find? (fun kv => subStr kv.1 low)).map (·.2)).getD 1

/-- One loop iteration of `_apply_rotation_change` (the axis, angle and
    additivity are loop-invariant, so computing them per step is
    value-identical to the source's hoisting). -/
noncomputable def rotStep (low : String) (numbers : List ℝ) (s2 : Scene)
    (i : ℕ) : Except PyErr Scene := do
  let axisIndex := rotationAxisOf low
  let degrees := numbers.headD 90
  let radians := degrees * Real.pi / 180
  let additive := subStr "by" low || subStr "+=" low
  let o' ← ensureTransform (objAt s2 i)
  let r := o'.transform.rotation
  let newRot ←
    if additive then do
      let cur ← slotGetFloatE r axisIndex 0
      slotSetE r axisIndex (cur + radians)
    else slotSetE r axisIndex radians
  pure (updObjAt s2 i (fun _ => { o' with transform.rotation := newRot }))

noncomputable def applyRotationChange (s : Scene) (targets : List ℕ)
    (text : String) (numbers : List ℝ) : Except PyErr (Scene × Bool) :=
  let low := lowerStr text
  if !rotationTrigger low then pure (s, false)
  else do
    let s' ← targets.foldlM (rotStep low numbers) s
    pure (s', !targets.isEmpty)

/-! ## `_duplicate_object` -/

noncomputable def duplicateObject (target : Obj) (spec : Scene) :
    Except PyErr Obj := do
  let base := if target.type = "" then "obj" else target.type
  let c := { target with id := generateId base (some spec) }
  let c' ← ensureTransform c
  let pos ←
    match c'.transform.position with
    | .vec v => .ok [v.getD 0 0 + 2.0, v.getD 1 0, v.getD 2 0]
    | .strv _ => .error PyErr.typeError
  return { c' with transform.position := .vec pos }

/-! ## `_apply_scale_change` and its regex patterns -/

def isScaleGroupChar (c : Char) : Bool :=
  c.isDigit || c = '+' || c = '-' || c = '.' || c = ',' || isWs c

/-- One `\s+\w+` repetition (both runs taken greedily; the following element
    always needs `\s`, so shortening the `\w+` run can never rescue a parse). -/
def matchWsWord (cs : List Char) : Option (List Char) :=
  let (ws, r1) := takeWhileList isWs cs
  if ws.isEmpty then none
  else
    let (w, r2) := takeWhileList isWordChar r1
    if w.isEmpty then none else some r2

def matchReps : ℕ → List Char → Option (List Char)
  | 0, cs => some cs
  | k + 1, cs => (matchWsWord cs).bind (matchReps k)

/-- `\s+KW\s+([-+0-9.,\s]+)`: the captured group, reduced to the character
    run the number extraction reads (whitespace the group could steal from
    the preceding `\s+` contributes no number tokens, so this is
    output-equivalent to the regex engine's answer). -/
def matchTailKwGroup (kw : List Char) (cs : List Char) : Option (List Char) :=
  let (ws, r1) := takeWhileList isWs cs
  if ws.isEmpty then none
  else if listIsPrefixOf kw r1 then
    let r2 := r1.drop kw.length
    let (ws2, r3) := takeWhileList isWs r2
    if ws2.isEmpty then none
    else some (takeWhileList isScaleGroupChar r3).1
  else none

/-- `scale(?:\s+\w+){0,3}\s+KW\s+(grp)` at the head of the input (greedy
    repetition count, as the regex engine backtracks it). -/
def matchScaleKwAt (kw : List Char) (cs : List Char) : Option (List Char) :=
  if listIsPrefixOf "scale".data cs then
    let rest := cs.drop 5
    let tryk := fun k => (matchReps k rest).bind (matchTailKwGroup kw)
    (tryk 3).orElse fun _ => (tryk 2).orElse fun _ => (tryk 1).orElse fun _ => tryk 0
  else none

/-- `set\s+scale\s+to\s+(grp)` at the head of the input. -/
def matchSetScaleAt (cs : List Char) : Option (List Char) :=
  if listIsPrefixOf "set".data cs then
    let (ws1, r1) := takeWhileList isWs (cs.drop 3)
    if ws1.isEmpty then none
    else if listIsPrefixOf "scale".data r1 then
      matchTailKwGroup "to".data (r1.drop 5)
    else none
  else none

/-- `scale\s*=\s*(grp)` at the head of the input. -/
def matchScaleEqAt (cs : List Char) : Option (List Char) :=
  if listIsPrefixOf "scale".data cs then
    let r1 := (takeWhileList isWs (cs.drop 5)).2
    match r1 with
    | '=' :: r2 =>
        let r3 := (takeWhileList isWs r2).2
        some (takeWhileList isScaleGroupChar r3).1
    | _ => none
  else none

/-- `re.search`: leftmost starting position where `tryAt` matches. -/
def searchPat (tryAt : List Char → Option (List Char)) :
    ℕ → List Char → Option (List Char)
  | 0, _ => none
  | _ + 1, [] => none
  | fuel + 1, c :: cs =>
      match tryAt (c :: cs) with
      | some g => some g
      | none => searchPat tryAt fuel cs

/-- Numbers of the group of the leftmost match of one scale pattern. -/
noncomputable def scalePatNums (tryAt : List Char → Option (List Char))
    (low : String) : List ℝ :=
  match searchPat tryAt (low.length + 1) low.data with
  | some g => (numTokensAux (g.length + 1) g).map tokenVal
  | none => []

noncomputable def applyScaleChange (s : Scene) (targets : List ℕ)
    (text : String) (numbers : List ℝ) : Except PyErr (Scene × Bool) :=
  let low := lowerStr text
  if !subStr "scale" low then pure (s, false)
  else
    let explicitPats :=
      [scalePatNums (matchScaleKwAt "to".data) low,
       scalePatNums matchSetScaleAt low,
       scalePatNums matchScaleEqAt low,
       scalePatNums (matchScaleKwAt "at".data) low]
    let explicitNums := ((explicitPats.find? (!·.isEmpty)).getD [])
    let factorNums := scalePatNums (matchScaleKwAt "by".data) low
    let explicitMentioned := !explicitNums.isEmpty ||
      (["scale to", "set scale", "scale =", "scale at"].any (subStr · low))
    let factorMentioned := !factorNums.isEmpty || subStr "scale by" low
    let explicitNums :=
      if explicitNums.isEmpty && explicitMentioned then numbers else explicitNums
    let factorNums :=
      if factorNums.isEmpty && factorMentioned then numbers else factorNums
    do
    let acc := ((s, false) : Scene × Bool)
    let acc ←
      if !explicitNums.isEmpty then do
        let values :=
          if 3 ≤ explicitNums.length then
            [explicitNums.getD 0 0, explicitNums.getD 1 0, explicitNums.getD 2 0]
          else [explicitNums.getD 0 0, explicitNums.getD 0 0, explicitNums.getD 0 0]
        let s' ← targets.foldlM
          (fun s2 i => do
            let o' ← ensureTransform (objAt s2 i)
            pure (updObjAt s2 i (fun _ =>
              { o' with transform.scale := .vec (values.map (max 0.01)) })))
          acc.1
        pure (s', acc.2 || !targets.isEmpty)
      else pure acc
    if !factorNums.isEmpty then do
      let factor := factorNums.headD 0
      let s' ← targets.foldlM
        (fun s2 i => do
          let o' ← ensureTransform (objAt s2 i)
          let sc ← slotMapE o'.transform.scale (fun v => max 0.01 (v * factor))
          pure (updObjAt s2 i (fun _ => { o' with transform.scale := .vec sc })))
        acc.1
      pure (s', acc.2 || !targets.isEmpty)
    else pure acc

/-! ## `_extract_named_value` -/

/-- `\d*\.?\d+` (no sign) at the head of the input. -/
def matchNumCore (cs : List Char) : Option (List Char × List Char) :=
  let (ds1, rest1) := takeDigits cs
  match rest1 with
  | '.' :: rest2 =>
      let (ds2, rest3) := takeDigits rest2
      if ds2.isEmpty then
        if ds1.isEmpty then none else some (ds1, rest1)
      else some (ds1 ++ '.' :: ds2, rest3)
  | _ => if ds1.isEmpty then none else some (ds1, rest1)

/-- `-?\d*\.?\d+` at the head of the input. -/
def matchNumNegAt (cs : List Char) : Option (List Char × List Char) :=
  match cs with
  | '-' :: rest => (matchNumCore rest).map (fun p => ('-' :: p.1, p.2))
  | _ => matchNumCore cs

/-- The connectors of the following-value pattern, in alternation order
    (their first characters are pairwise distinct, so at most one applies). -/
def NAMED_CONNECTORS : List (List Char) :=
  ["is".data, "=".data, ":".data, "of".data, "with".data, "at".data, "to".data]

/-- `\bKW\b\s*(?:is|=|:|of|with|at|to)?\s*(-?\d*\.?\d+)` tried at one
    position (`prevWord`: whether a word character precedes). -/
def followingAt (kw : List Char) (prevWord : Bool) (cs : List Char) :
    Option (List Char) :=
  if prevWord || !listIsPrefixOf kw cs || kw.isEmpty then none
  else
    let after := cs.drop kw.length
    let boundaryAfter := match after with | [] => true | d :: _ => !isWordChar d
    if !boundaryAfter then none
    else
      let r1 := (takeWhileList isWs after).2
      let viaConnector := NAMED_CONNECTORS.foldr
        (fun c acc =>
          match acc with
          | some g => some g
          | none =>
              if listIsPrefixOf c r1 then
                (matchNumNegAt ((takeWhileList isWs (r1.drop c.length)).2)).map (·.1)
              else none)
        none
      match viaConnector with
      | some g => some g
      | none => (matchNumNegAt r1).map (·.1)

def followingSearch (kw : List Char) : ℕ → Bool → List Char → Option (List Char)
  | 0, _, _ => none
  | _ + 1, prevWord, [] => followingAt kw prevWord []
  | fuel + 1, prevWord, c :: cs =>
      match followingAt kw prevWord (c :: cs) with
      | some g => some g
      | none => followingSearch kw fuel (isWordChar c) cs

/-- `([-+]?\d*\.?\d+)\s*(?:units?\s*)?KW\b` tried at one position; returns
    the number token. -/
def precedingAt (kw : List Char) (cs : List Char) : Option (List Char) :=
  match matchNumAt cs with
  | none => none
  | some (tok, rest) =>
      let r1 := (takeWhileList isWs rest).2
      let finish := fun (r : List Char) =>
        if listIsPrefixOf kw r && !kw.isEmpty then
          let after := r.drop kw.length
          let boundaryAfter := match after with | [] => true | d :: _ => !isWordChar d
          if boundaryAfter then some tok else none
        else none
      let withUnits :=
        if listIsPrefixOf "units".data r1 then
          finish ((takeWhileList isWs (r1.drop 5)).2)
        else none
      let withUnit :=
        match withUnits with
        | some g => some g
        | none =>
            if listIsPrefixOf "unit".data r1 then
              finish ((takeWhileList isWs (r1.drop 4)).2)
            else none
      match withUnit with
      | some g => some g
      | none => finish r1

/-- Leftmost `precedingAt` match, together with the characters before it. -/
def precedingSearch (kw : List Char) :
    ℕ → List Char → List Char → Option (List Char × List Char)
  | 0, _, _ => none
  | _ + 1, _, [] => none
  | fuel + 1, seen, c :: cs =>
      match precedingAt kw (c :: cs) with
      | some tok => some (seen.reverse, tok)
      | none => precedingSearch kw fuel (c :: seen) cs

/-- The trailing `([a-z]+)\s*$` word of a prefix, if any. -/
def lastAlphaWord (cs : List Char) : Option (List Char) :=
  let r := cs.reverse
  let r1 := (takeWhileList isWs r).2
  let (w, _) := takeWhileList (fun c => 'a' ≤ c && c ≤ 'z') r1
  if w.isEmpty then none else some w.reverse

/-- The preceding-value rejection: the word just before the number match is
    itself a dimension keyword. -/
def precedingRejected (prefix_ : List Char) : Bool :=
  match lastAlphaWord prefix_ with
  | some w => DIMENSION_KEYWORDS.any (fun k => k.data = w)
  | none => false

/-- `_extract_named_value(text, keywords)`. -/
noncomputable def extractNamedValue (text : String) (keywords : List String) :
    Option ℝ :=
  keywords.foldr
    (fun kw acc =>
      let cs := text.data
      let following := (followingSearch kw.data (cs.length + 1) false cs).map tokenVal
      let preceding :=
        match precedingSearch kw.data (cs.length + 1) [] cs with
        | some (pre, tok) => if precedingRejected pre then none else some (tokenVal tok)
        | none => none
      match preceding with
      | some v => some v
      | none => match following with
        | some v => some v
        | none => acc)
    none

/-! ## `_detect_object_type`, `_default_params_for_type`, `_is_add_intent` -/

def detectObjectType (text : String) : String :=
  let lowered := lowerStr text
  (( ["cylinder", "sphere", "cone", "torus", "plane", "box"].find?
      (fun c => matchType c lowered)).map (fun c => if c = "box" then "box" else c)).getD "box"

/-- Python `x or default` on an optional float (`None` and `0.0` are falsy). -/
noncomputable def orFalsy (v : Option ℝ) (d : ℝ) : ℝ :=
  match v with
  | some x => if x = 0 then d else x
  | none => d

/-- Python `int(x)`: truncation toward zero. -/
noncomputable def pyTrunc (r : ℝ) : ℤ := if r < 0 then -⌊-r⌋ else ⌊r⌋

/-- `remove first occurrence, ignore absence` (`available.remove(value)`
    under `try/except ValueError`). -/
noncomputable def removeFirstR (v : ℝ) : List ℝ → List ℝ
  | [] => []
  | x :: xs => if x = v then xs else x :: removeFirstR v xs

/-- One `param_value(keywords, default)` draw from the shared number pool. -/
noncomputable def paramValue (text : String) (keywords : List String)
    (d : ℝ) (available : List ℝ) : ℝ × List ℝ :=
  match extractNamedValue text keywords with
  | some v => (v, removeFirstR v available)
  | none =>
      match available with
      | x :: rest => (x, rest)
      | [] => (d, [])

/-- `_default_params_for_type(obj_type, text, numbers)`. -/
noncomputable def defaultParamsForType (objType : String) (text : String)
    (numbers : List ℝ) : List (String × Value) :=
  let a0 := numbers
  if objType = "box" then
    let (w, a1) := paramValue text ["width", "wide"] 10.0 a0
    let (d, a2) := paramValue text ["depth", "deep", "length", "long"] w a1
    let (h, _) := paramValue text ["height", "tall"] w a2
    [("width", .num w), ("depth", .num d), ("height", .num h)]
  else if objType = "cylinder" then
    let (r, a1) := paramValue text ["radius", "rad", "diameter"] 5.0 a0
    let (d, _) := paramValue text ["depth", "height"] 10.0 a1
    [("radius", .num r), ("depth", .num d)]
  else if objType = "sphere" then
    let (r, _) := paramValue text ["radius", "rad", "size"] 5.0 a0
    [("radius", .num r)]
  else if objType = "cone" then
    let (r, a1) := paramValue text ["radius", "base"] 5.0 a0
    let (h, _) := paramValue text ["height"] 10.0 a1
    [("radius", .num r), ("height", .num h)]
  else if objType = "torus" then
    let (r, a1) := paramValue text ["radius", "major"] 5.0 a0
    let (t, _) := paramValue text ["tube", "minor"] 1.5 a1
    [("radius", .num r), ("tube", .num t)]
  else if objType = "plane" then
    let (sz, _) := paramValue text ["size", "width", "length"] 10.0 a0
    [("size", .num sz)]
  else if objType = "assembly" then
    let low := lowerStr text
    if subStr "bicycle" low || subStr "bike" low then
      [("template", .str "bicycle_basic"),
       ("wheelRadius", .num (orFalsy (extractNamedValue text ["wheel radius", "radius"]) 3.0)),
       ("tireThickness", .num (orFalsy (extractNamedValue text ["tire", "thickness"]) 0.4)),
       ("wheelbase", .num (orFalsy (extractNamedValue text ["wheelbase", "length"]) 8.0)),
       ("frameHeight", .num (orFalsy (extractNamedValue text ["height"]) 4.0)),
       ("frameColor", .str ((colorFromText text).getD "#b9c6ff"))]
    else
      [("template", .str "robot_hand"),
       ("fingerCount", .num ((pyTrunc (orFalsy (extractNamedValue text ["fingers", "finger"]) 5) : ℤ) : ℝ)),
       ("palmWidth", .num (orFalsy (extractNamedValue text ["palm width", "width"]) 8.0)),
       ("palmDepth", .num (orFalsy (extractNamedValue text ["palm depth", "depth"]) 2.0)),
       ("palmHeight", .num (orFalsy (extractNamedValue text ["palm height", "height"]) 10.0)),
       ("fingerLength", .num (orFalsy (extractNamedValue text ["finger length"]) 8.0))]
  else []

def isAddIntent (lowered : String) : Bool :=
  ADD_KEYWORDS.any (subStr · lowered) || ADD_PHRASES.any (subStr · lowered)

/-! ## `_build_external_model` -/

/-- The characters of a found URL after the `http(s)://` scheme prefix. -/
def urlAfterScheme (u : List Char) : List Char :=
  if listIsPrefixOf "https://".data u then u.drop 8
  else if listIsPrefixOf "http://".data u then u.drop 7
  else u

/-- `urllib.parse.urlparse(url).path` for the scheme-prefixed URLs the
    engine feeds it, together with CPython's unmatched-bracket `ValueError`
    for the netloc (the `Invalid IPv6 URL` check). -/
def urlParsePath (u : List Char) : Except PyErr (List Char) :=
  let rest := urlAfterScheme u
  let (netloc, r1) := takeWhileList (fun c => c ≠ '/' && c ≠ '?' && c ≠ '#') rest
  if ('[' ∈ netloc) ≠ (']' ∈ netloc) then .error .valueError
  else
    match r1 with
    | '/' :: _ => .ok (takeWhileList (fun c => c ≠ '?' && c ≠ '#') r1).1
    | _ => .ok []

def EXTERNAL_EXTS : List String := ["gltf", "glb", "obj", "fbx", "stl"]

/-- `_build_external_model(url, text, spec)`. -/
def buildExternalModel (url : String) (text : String) (spec : Scene) :
    Except PyErr (Option Obj) := do
  let path ← urlParsePath url.data
  let ext :=
    if '.' ∈ path then lowerStr (((⟨path⟩ : String).splitOn ".").getLastD "")
    else ""
  if ¬ ext ∈ EXTERNAL_EXTS then return none
  let ps : List (String × Value) := [("url", .str url), ("format", .str ext)]
  let ps :=
    match colorFromText text with
    | some c => setParam ps "color" (.str c)
    | none => ps
  return some ⟨generateId "model" (some spec), "external_model", ps, defaultTransform⟩

/-! ## `_build_new_object` -/

def BASE_NAMES : List (String × String) :=
  [("box", "box"), ("cylinder", "cyl"), ("sphere", "sph"), ("cone", "cone"),
   ("torus", "torus"), ("plane", "plane"), ("external_model", "model"),
   ("assembly", "asm")]

noncomputable def buildNewObject (userText : String) (spec : Scene)
    (numbers : List ℝ) : Obj :=
  let low := lowerStr userText
  let objType :=
    if ["robot hand", "robotic hand", "gripper", "end effector", "bicycle",
        "bike"].any (subStr · low) ||
       (subStr "mechanism" low && (subStr "hand" low || subStr "finger" low)) then
      "assembly"
    else detectObjectType userText
  let params := defaultParamsForType objType userText numbers
  let base := ((BASE_NAMES.find? (·.1 = objType)).map (·.2)).getD "obj"
  let params :=
    match colorFromText userText with
    | some c => setParam params "color" (.str c)
    | none => params
  ⟨generateId base (some spec), objType, params, defaultTransform⟩

/-! ## `_replace_object` -/

/-- Python truthiness of a param value. -/
noncomputable def truthyValue : Value → Bool
  | .num r => !(r = 0 : Bool)
  | .str s => !(s = "" : Bool)

/-- `_replace_object(targets[0], spec, text, numbers)`, with the target given
    by its index; returns the updated scene and the success flag. -/
noncomputable def replaceObject (s : Scene) (t0 : ℕ) (text : String)
    (numbers : List ℝ) : Except PyErr (Scene × Bool) := do
  let target := objAt s t0
  let newType := detectObjectType text
  if newType = "" then return (s, false)
  else if newType = target.type then return (s, false)
  else
    let target' ← ensureTransform target
    let s1 := updObjAt s t0 (fun _ => target')
    let snapshot := target'.transform
    let params := defaultParamsForType newType text numbers
    let color : Option Value :=
      match colorFromText text with
      | some c => some (.str c)
      | none => getParamV target.params "color"
    let newId := if target.id = "" then generateId newType (some s1) else target.id
    let params :=
      match color with
      | some v => if truthyValue v then setParam params "color" v else params
      | none => params
    let replacement : Obj := ⟨newId, newType, params, snapshot⟩
    match s1.objects.findIdx? (fun o => o = target') with
    | some i => return (⟨s1.objects.set i replacement⟩, true)
    | none => return (s1, false)

/-! ## `_build_composite_objects` -/

def colorEntry : Option String → List (String × Value)
  | some c => [("color", .str c)]
  | none => []

/-- `add_box(w, d, h, pos, rot=None, color=None)`.  The `rot` argument is a
    whole transform slot because two call sites pass a color *string*
    positionally where the rotation belongs (`rot or [0,0,0]`, and a
    non-empty string is truthy). -/
noncomputable def mkBox (spec : Scene) (w d h : ℝ) (pos : List ℝ)
    (rot : Option TVec) (color : Option String) : Obj :=
  ⟨generateId "box" (some spec), "box",
   [("width", .num w), ("depth", .num d), ("height", .num h)] ++ colorEntry color,
   ⟨.vec pos, rot.getD (.vec [0, 0, 0]), .vec [1, 1, 1]⟩⟩

/-- `add_cyl(radius, depth, pos, rot=None, color=None)`. -/
noncomputable def mkCyl (spec : Scene) (radius depth : ℝ) (pos : List ℝ)
    (rot : Option (List ℝ)) (color : Option String) : Obj :=
  ⟨generateId "cyl" (some spec), "cylinder",
   [("radius", .num radius), ("depth", .num depth)] ++ colorEntry color,
   ⟨.vec pos, .vec (rot.getD [0, 0, 0]), .vec [1, 1, 1]⟩⟩

/-- `add_torus(radius, tube, pos, rot=None, color=None)`. -/
noncomputable def mkTorus (spec : Scene) (radius tube : ℝ) (pos : List ℝ)
    (rot : Option (List ℝ)) (color : Option String) : Obj :=
  ⟨generateId "torus" (some spec), "torus",
   [("radius", .num radius), ("tube", .num tube)] ++ colorEntry color,
   ⟨.vec pos, .vec (rot.getD [0, 0, 0]), .vec [1, 1, 1]⟩⟩

/-- `add_sphere(radius, pos, color=None)`. -/
noncomputable def mkSphere (spec : Scene) (radius : ℝ) (pos : List ℝ)
    (color : Option String) : Obj :=
  ⟨generateId "sph" (some spec), "sphere",
   [("radius", .num radius)] ++ colorEntry color,
   ⟨.vec pos, .vec [0, 0, 0], .vec [1, 1, 1]⟩⟩

/-- The flattened phrase table `FIRST100_KEYWORDS` (only its `values()` are
    read, through `any`, so the flat list is the faithful reading). -/
def FIRST100_PHRASES : List String :=
  ["spur gear", "gear (spur)", "gear", "helical gear", "planetary gear",
   "planet gear", "sun gear", "ring gear", "shaft coupling", "coupling",
   "bearing housing", "ball bearing", "bearing", "pulley", "chain drive",
   "belt drive", "flywheel", "crankshaft", "connecting rod", "conrod",
   "piston", "engine block", "camshaft", "valve assembly", "clutch plate",
   "differential", "axle hub", "suspension arm", "shock absorber",
   "hydraulic piston", "compressor rotor", "turbine blade", "impeller",
   "centrifugal pump", "gearbox casing", "worm gear", "sprocket",
   "universal joint", "u-joint", "threaded bolt", "bolt", "nut and washer",
   "nut", "washer", "fastener set", "l-bracket", "l bracket",
   "structural beam", "i-beam", "ibeam", "i beam", "angle section",
   "angle profile", "pipe joint", "pipe flange", "flange", "pressure valve",
   "ball valve", "gate valve", "manifold", "heat exchanger", "radiator fin",
   "cooling fan", "air duct", "vent grill", "vent grille", "bearing block",
   "keyway", "key and keyway", "splined shaft", "tool holder", "cnc fixture",
   "fixture", "milling vice", "milling vise", "drill chuck", "end mill",
   "lathe toolpost", "toolpost", "machine base", "robot arm joint",
   "rotary actuator", "pneumatic cylinder", "servo motor housing",
   "motor mount plate", "stepper motor bracket", "gear reducer casing",
   "sensor mount", "optical encoder housing", "bearing seat", "cam follower",
   "belt tensioner", "timing pulley", "linear guide rail", "lead screw",
   "ball screw nut", "machine column", "cross-slide", "cross slide",
   "rotary table", "tool changer", "workpiece clamp", "jig plate", "spacer",
   "washer types", "spring washer", "flat washer", "retaining ring",
   "snap fit joint", "snap-fit", "dowel pin", "locating pin", "rivet",
   "welded frame", "extruded aluminum profile", "aluminum extruded profile",
   "mounting bracket set", "mounting bracket", "cooling fin block",
   "shaft support", "pulley belt system", "chain tensioner", "sealing ring",
   "bearing cage", "spur gearbox", "worm drive", "rack and pinion",
   "geneva wheel", "toggle clamp", "industrial fan", "industrial fan assembly"]

/-- The lower half of `_build_composite_objects`'s dispatch chain (from the
    SCARA branch down to the generic mechanical fallback), split out only to
    keep each definition readable. -/
noncomputable def buildCompositeTail (low : String) (color : Option String)
    (spec : Scene) : List Obj :=
  let π' := Real.pi
  let kwAny := fun (ks : List String) => ks.any (subStr · low)
  -- SCARA robot
  if kwAny ["scara robot", "scara"] then
    [mkCyl spec 1.0 0.5 [0, 0, 0.25] none none,
     mkBox spec 2.2 0.4 0.25 [1.1, 0, 0.75] none none,
     mkBox spec 1.8 0.35 0.25 [2.0, 0, 0.75] none none,
     mkCyl spec 0.25 1.2 [2.0, 0, 1.35] none none,
     mkBox spec 0.6 0.4 0.2 [2.0, 0, 2.0] none none]
  -- Delta robot
  else if kwAny ["delta robot"] then
    [mkBox spec 2.4 2.4 0.2 [0, 0, 2.2] none none,
     mkBox spec 1.2 1.2 0.15 [0, 0, 1.0] none none] ++
    ([0, 2 * π' / 3, 4 * π' / 3].map fun ang =>
      mkCyl spec 0.12 1.2 [Real.cos ang * 1.1, Real.sin ang * 1.1, 1.6] none none)
  -- Differential drive robot chassis
  else if kwAny ["differential drive", "robot chassis"] then
    let wheelR := 0.6
    [mkBox spec 3.2 2.4 0.2 [0, 0, 0.1] none none,
     mkTorus spec wheelR 0.15 [0, 1.2, wheelR] (some [π' / 2, 0, 0]) none,
     mkTorus spec wheelR 0.15 [0, -1.2, wheelR] (some [π' / 2, 0, 0]) none,
     mkCyl spec 0.2 0.3 [-1.3, 0, 0.15] none none]
  -- Mecanum / omni wheel
  else if kwAny ["mecanum wheel", "omni wheel"] then
    mkTorus spec 1.0 0.25 [0, 0, 1.0] (some [π' / 2, 0, 0]) none ::
      (List.range 8).map fun i =>
        let ang := i * (2 * π' / 8)
        mkCyl spec 0.15 0.8 [Real.cos ang * 0.9, Real.sin ang * 0.9, 1.0]
          (some [0, ang, π' / 4]) none
  -- Grippers (claw, parallel, 3-finger)
  else if kwAny ["gripper claw", "parallel gripper", "3-finger", "three-finger"] then
    let fingers : ℕ := if subStr "3" low || subStr "three" low then 3 else 2
    mkBox spec 1.2 0.6 0.25 [0, 0, 0.125] none none ::
      (List.range fingers).map fun i =>
        let ang : ℝ :=
          if fingers = 2 then (if i = 0 then -0.3 else 0.3)
          else (if i = 0 then -0.5 else if i = 1 then 0.0 else 0.5)
        mkBox spec 0.9 0.2 0.2 [0.6 * Real.cos ang, 0.6 * Real.sin ang, 0.3]
          (some (.vec [0, 0, ang])) none
  -- Vacuum gripper
  else if kwAny ["vacuum gripper", "suction pad", "suction"] then
    [mkBox spec 1.2 1.2 0.1 [0, 0, 0.05] none none,
     mkTorus spec 0.5 0.18 [0, 0, 0.2] (some [π' / 2, 0, 0]) none]
  -- Electronics enclosures
  else if kwAny ["arduino enclosure", "pcb enclosure", "imu case",
                 "controller enclosure", "controller case"] then
    [mkBox spec 2.6 1.8 0.6 [0, 0, 0.3] none none,
     mkBox spec 2.6 1.8 0.1 [0, 0, 0.65] none none,
     mkBox spec 2.2 0.08 0.02 [0, -0.6, 0.62] none none,
     mkBox spec 2.2 0.08 0.02 [0, -0.3, 0.62] none none]
  -- Caster wheel
  else if kwAny ["caster wheel"] then
    [mkBox spec 0.6 0.4 0.2 [0, 0, 0.9] none none,
     mkCyl spec 0.15 0.5 [0, 0, 1.15] none none,
     mkTorus spec 0.5 0.14 [0, 0, 0.5] (some [π' / 2, 0, 0]) none]
  -- Lidar mount
  else if kwAny ["lidar mount", "lidar"] then
    [mkBox spec 1.8 1.8 0.15 [0, 0, 0.075] none none,
     mkTorus spec 0.7 0.12 [0, 0, 0.4] (some [π' / 2, 0, 0]) none,
     mkCyl spec 0.12 0.6 [0.8, 0.8, 0.3] none none]
  -- Camera gimbal housing / gimbal assembly
  else if kwAny ["gimbal", "camera gimbal", "gimbal assembly",
                 "camera gimbal housing"] then
    [mkTorus spec 1.2 0.12 [0, 0, 1.0] none none,
     mkTorus spec 0.9 0.1 [0, 0, 1.0] (some [0, π' / 2, 0]) none,
     mkBox spec 0.9 0.6 0.5 [0, 0, 0.9] none none,
     mkCyl spec 0.25 0.25 [0.45, 0, 0.95] (some [0, π' / 2, 0]) none]
  -- Wire routing clip / cable management bracket
  else if kwAny ["wire routing clip", "cable management bracket", "cable clip"] then
    [mkBox spec 1.6 0.5 0.2 [0, 0, 0.1] none none,
     mkTorus spec 0.6 0.18 [0, 0, 0.3] none none]
  -- Sensor mount (ultrasonic, IR)
  else if kwAny ["sensor mount", "ultrasonic", "ir sensor mount"] then
    [mkBox spec 2.0 0.8 0.15 [0, 0, 0.075] none none,
     mkCyl spec 0.35 0.4 [-0.5, 0, 0.35] none none,
     mkCyl spec 0.35 0.4 [0.5, 0, 0.35] none none]
  -- Raspberry Pi mount
  else if kwAny ["raspberry pi mount", "rpi mount"] then
    mkBox spec 2.8 2.0 0.2 [0, 0, 0.1] none none ::
      ([(-1.1, -0.8), (1.1, -0.8), (-1.1, 0.8), (1.1, 0.8)].map
        fun (p : ℝ × ℝ) => mkCyl spec 0.1 0.4 [p.1, p.2, 0.3] none none)
  -- Power distribution board case
  else if kwAny ["power distribution board case", "pdb case"] then
    [mkBox spec 2.2 2.2 0.7 [0, 0, 0.35] none none,
     mkBox spec 1.8 0.1 0.05 [0, 0.8, 0.7] none none]
  -- Cooling fan duct
  else if kwAny ["cooling fan duct", "fan duct"] then
    [mkBox spec 1.4 1.4 0.6 [-0.7, 0, 0.3] none none,
     mkBox spec 1.0 1.0 0.6 [0.6, 0, 0.3] none none,
     mkBox spec 0.8 1.0 0.6 [0, 0, 0.3] none none]
  -- Cable protector (the base plate is appended after the ribs)
  else if kwAny ["cable protector"] then
    ((List.range 6).map fun i =>
      mkBox spec 0.2 1.0 0.1 [-1.25 + i * 0.5, 0, 0.2] none none) ++
    [mkBox spec 3.0 1.0 0.15 [0, 0, 0.075] none none]
  -- Wheel hub motor
  else if kwAny ["wheel hub motor"] then
    [mkTorus spec 1.1 0.2 [0, 0, 1.0] (some [π' / 2, 0, 0]) none,
     mkCyl spec 0.5 0.6 [0, 0, 0.3] none none]
  -- Suspension for mobile robot
  else if kwAny ["suspension"] then
    [mkTorus spec 0.5 0.12 [0, 0, 0.7] none none,
     mkBox spec 1.6 0.3 0.2 [0.8, 0, 0.4] none none]
  -- Camera housing / robot head
  else if kwAny ["camera housing"] then
    [mkBox spec 1.2 0.9 0.7 [0, 0, 0.35] none none,
     mkCyl spec 0.25 0.35 [0.6, 0, 0.5] (some [0, π' / 2, 0]) none]
  else if kwAny ["robot head"] then
    [⟨generateId "sph" (some spec), "sphere", [("radius", .num 0.8)],
      ⟨.vec [0, 0, 0.8], .vec [0, 0, 0], .vec [1, 1, 1]⟩⟩,
     mkCyl spec 0.12 0.2 [0.25, 0.2, 0.9] (some [0, π' / 2, 0]) none,
     mkCyl spec 0.12 0.2 [0.25, -0.2, 0.9] (some [0, π' / 2, 0]) none]
  -- Arm link / wrist joint
  else if kwAny ["arm link"] then
    [mkCyl spec 0.35 2.0 [0, 1.0, 1.0] (some [π' / 2, 0, 0]) none]
  else if kwAny ["wrist joint"] then
    [mkCyl spec 0.5 0.8 [0, 0, 0.4] none none,
     mkTorus spec 0.6 0.1 [0, 0, 0.8] none none]
  -- Tool changer / end effector interface (bolts first, then plate and ring)
  else if kwAny ["tool changer", "end effector interface",
                 "force-torque sensor mount"] then
    ((List.range 6).map fun i =>
      let ang := (2 * π' / 6) * i
      mkCyl spec 0.08 0.25 [Real.cos ang * 0.6, Real.sin ang * 0.6, 0.125]
        none none) ++
    [mkBox spec 1.8 1.8 0.2 [0, 0, 0.1] none none,
     mkTorus spec 0.7 0.12 [0, 0, 0.25] none none]
  -- Robot base frame
  else if kwAny ["robot base frame"] then
    let w := 4.0; let d := 3.0; let h := 0.25
    [mkBox spec w 0.25 h [0, d / 2, h / 2] none none,
     mkBox spec w 0.25 h [0, -d / 2, h / 2] none none,
     mkBox spec 0.25 d h [w / 2, 0, h / 2] none none,
     mkBox spec 0.25 d h [-w / 2, 0, h / 2] none none]
  -- Joint cover / axis housing / cable harness
  else if kwAny ["joint cover"] then
    [⟨generateId "sph" (some spec), "sphere", [("radius", .num 0.9)],
      ⟨.vec [0, 0, 0.9], .vec [0, 0, 0], .vec [1, 1, 0.6]⟩⟩]
  else if kwAny ["axis housing"] then
    [mkCyl spec 0.6 2.2 [0, 0, 1.1] none none]
  else if kwAny ["cable harness"] then
    (List.range 5).map fun i =>
      mkCyl spec 0.06 2.2 [-0.2 + i * 0.1, 0, 1.1] (some [0, π' / 2, 0]) none
  -- Battery holder
  else if kwAny ["battery holder"] then
    [mkBox spec 2.2 1.2 0.2 [0, 0, 0.1] none none,
     mkCyl spec 0.3 1.0 [-0.6, 0, 0.5] (some [0, π' / 2, 0]) none,
     mkCyl spec 0.3 1.0 [0.6, 0, 0.5] (some [0, π' / 2, 0]) none]
  -- Track system (tank robot)
  else if kwAny ["track system", "tank robot", "tracks"] then
    [mkBox spec 4.0 2.0 0.3 [0, 0, 0.15] none none,
     mkTorus spec 1.0 0.2 [-1.8, 0, 0.6] (some [π' / 2, 0, 0]) none,
     mkTorus spec 1.0 0.2 [1.8, 0, 0.6] (some [π' / 2, 0, 0]) none]
  -- Furniture – table
  else if subStr "table" low then
    let topW := 3.0; let topD := 1.6
    let legH := 0.8
    mkBox spec topW topD 0.15 [0, 0, 0.8] none none ::
      ([(-1 : ℝ), 1].flatMap fun sx =>
        [(-1 : ℝ), 1].map fun sy =>
          mkCyl spec 0.07 legH
            [sx * (topW / 2 - 0.15), sy * (topD / 2 - 0.15), legH / 2] none none)
  -- Furniture – chair
  else if kwAny ["chair", "stool"] then
    let seatW := 1.2; let seatD := 1.2
    mkBox spec seatW seatD 0.1 [0, 0, 0.55] none none ::
      ([(-1 : ℝ), 1].flatMap fun sx =>
        [(-1 : ℝ), 1].map fun sy =>
          mkCyl spec 0.06 0.55
            [sx * (seatW / 2 - 0.1), sy * (seatD / 2 - 0.1), 0.275] none none) ++
      [mkBox spec 1.2 0.1 1.0 [0, -(seatD / 2 - 0.05), 1.05] none none]
  -- Everyday – cup / mug / bowl / vase
  else if kwAny ["cup", "mug"] then
    [mkCyl spec 0.6 1.0 [0, 0, 0.5] none none,
     mkTorus spec 0.6 0.1 [0, 0, 1.02] none none]
  else if subStr "bowl" low then
    [⟨generateId "sph" (some spec), "sphere", [("radius", .num 0.8)],
      ⟨.vec [0, 0, 0.8], .vec [0, 0, 0], .vec [1, 1, 0.6]⟩⟩]
  else if kwAny ["vase", "parametric vase"] then
    [mkCyl spec 0.5 1.6 [0, 0, 0.8] none none,
     mkTorus spec 0.5 0.12 [0, 0, 1.65] none none]
  -- Generic mechanical fallback for the first-100 keyword groups
  else if FIRST100_PHRASES.any (subStr · low) then
    [mkBox spec 3.2 3.2 0.18 [0, 0, 0.09] none (some (color.getD "#1f2333")),
     mkCyl spec 0.35 2.4 [0, 0, 1.2] none (some (color.getD "#9aa7ff")),
     mkTorus spec 1.4 0.22 [1.6, 0, 0.7] (some [π' / 2, 0, 0]) (some "#20262f"),
     mkCyl spec 1.1 0.3 [-1.6, 0, 0.15] none (some (color.getD "#b9c6ff")),
     mkCyl spec 0.6 0.5 [0, 0, 0.25] none (some "#2b3145")] ++
    ((List.range 6).map fun i =>
      let ang := (2 * π' / 6) * i
      mkCyl spec 0.08 0.25 [Real.cos ang * 1.0, Real.sin ang * 1.0, 0.125]
        none (some "#dfe6ff"))
  else []

/-- `_build_composite_objects(text, spec, numbers)`: the ordered
    keyword-to-assembly dispatch chain, first match wins.  Every `add_id`
    call reads the *unchanged* `spec`, so repeated base names inside one
    assembly receive the same id — faithfully reproduced here by passing the
    constant `spec` to every constructor. -/
noncomputable def buildCompositeObjects (text : String) (spec : Scene)
    (numbers : List ℝ) : List Obj :=
  let low := lowerStr text
  let color := colorFromText text
  let π' := Real.pi
  let kwAny := fun (ks : List String) => ks.any (subStr · low)
  -- Automotive – car
  if kwAny ["car", "vehicle", "automobile", "sedan", "suv", "coupe"] then
    let length := if 3 ≤ numbers.length then numbers.getD 0 0 else 8.0
    let width := if 3 ≤ numbers.length then numbers.getD 1 0 else 3.2
    let height := if 3 ≤ numbers.length then numbers.getD 2 0 else 2.2
    let body : Obj :=
      ⟨generateId "car_body" (some spec), "box",
       [("width", .num width), ("depth", .num length), ("height", .num height)] ++
         colorEntry color,
       ⟨.vec [0, 0, height / 2], .vec [0, 0, 0], .vec [1, 1, 1]⟩⟩
    let wheelRadius := max 0.4 (min width height * 0.34)
    let wheelTube := max 0.12 (wheelRadius * 0.2)
    let xOff := width / 2 - wheelRadius * 0.8
    let yOff := length / 2 - wheelRadius * 0.8
    body ::
      ([-xOff, xOff].flatMap fun ox =>
        [-yOff, yOff].map fun oy =>
          mkTorus spec wheelRadius wheelTube [ox, oy, wheelRadius]
            (some [π' / 2, 0, 0]) (some "#20262f"))
  -- Mechanical – gear (spur)
  else if subStr "gear" low &&
      !subStr "helical" low && !subStr "worm" low && !subStr "bevel" low then
    let r := 2.0
    let thickness := 0.6
    mkCyl spec r thickness [0, 0, thickness / 2] none (some (color.getD "#b9c6ff")) ::
      (List.range 16).map fun i =>
        let ang := (2 * π' / 16) * i
        mkBox spec 0.25 0.6 (thickness * 0.7)
          [Real.cos ang * (r + 0.3), Real.sin ang * (r + 0.3), thickness / 2]
          (some (.vec [0, 0, ang])) (some "#dfe6ff")
  -- Mechanical – pulley / sprocket
  else if kwAny ["pulley", "sprocket", "timing pulley"] then
    let r := 2.0
    [mkTorus spec r 0.35 [0, 0, r * 0.25] (some [π' / 2, 0, 0])
       (some (color.getD "#9aa7ff")),
     mkCyl spec (r * 0.2) (r * 0.5) [0, 0, r * 0.25] none (some "#2b3145")]
  -- Structural – I-beam
  else if kwAny ["i-beam", "ibeam", "i beam", "structural beam"] then
    let h := 4.0; let w := 1.8; let t := 0.3; let d := 8.0
    [mkBox spec w d t [0, 0, t / 2] none none,
     mkBox spec w d t [0, 0, h - t / 2] none none,
     mkBox spec t d (h - t) [0, 0, (h - t) / 2] none none]
  -- Brackets
  else if kwAny ["l-bracket", "l bracket", "mounting bracket"] then
    [mkBox spec 3.0 0.5 0.4 [1.5, 0, 0.2] none none,
     mkBox spec 0.5 3.0 0.4 [0.25, 1.5, 0.2] none none]
  -- Pipe flange
  else if kwAny ["flange", "pipe flange"] then
    [mkCyl spec 2.0 0.4 [0, 0, 0.2] none none,
     mkCyl spec 0.7 1.2 [0, 0, 0.6] none none]
  -- Fan / impeller
  else if kwAny ["fan", "impeller"] then
    mkCyl spec 0.6 0.4 [0, 0, 0.2] none none ::
      (List.range 6).map fun i =>
        let ang := (2 * π' / 6) * i
        mkBox spec 0.2 2.0 0.1 [Real.cos ang * 1.0, Real.sin ang * 1.0, 0.25]
          (some (.vec [0, 0, ang])) none
  -- Robotics – humanoid or service robot
  else if kwAny ["humanoid", "android", "biped robot", "service robot"] then
    let torsoH := 4.0
    let shoulderZ := torsoH * 0.75
    let armLen := 2.8
    let hipZ := torsoH * 0.2
    let legLen := 3.0
    [mkBox spec 2.2 1.2 torsoH [0, 0, torsoH / 2] none
       (some (color.getD "#9aa7ff")),
     mkSphere spec 0.9 [0, 0, torsoH + 1.1] (some (color.getD "#d6e4ff"))] ++
    ([-1.4, 1.4].flatMap fun side =>
      [mkCyl spec 0.35 armLen [side, 0, shoulderZ] (some [0, π' / 2, 0])
         (some (color.getD "#8da2ff")),
       mkCyl spec 0.3 (armLen * 0.8) [side * 1.6, 0, shoulderZ - armLen * 0.4]
         (some [0, π' / 2, 0]) (some (color.getD "#8da2ff")),
       mkBox spec 0.6 0.4 0.4 [side * 2.2, 0, shoulderZ - armLen * 0.8] none
         (some (color.getD "#ffcd8a"))]) ++
    ([-0.8, 0.8].flatMap fun side =>
      [mkCyl spec 0.45 legLen [side, 0, hipZ] (some [0, π' / 2, 0])
         (some (color.getD "#9aa7ff")),
       mkCyl spec 0.38 (legLen * 0.85) [side * 1.1, 0, hipZ - legLen * 0.4]
         (some [0, π' / 2, 0]) (some (color.getD "#9aa7ff")),
       mkBox spec 0.6 1.4 0.3 [side * 1.3, 0.4, hipZ - legLen * 0.9] none
         (some (color.getD "#46506b"))])
  -- Robotics – wheeled service robot (the `color or "#9aa7ff"` here is the
  -- fifth *positional* argument of `add_box`, i.e. its `rot` parameter)
  else if kwAny ["service robot", "delivery robot", "wheeled robot",
                 "autonomous cart"] then
    [mkBox spec 2.4 3.0 0.8 [0, 0, 0.4]
       (some (.strv (color.getD "#9aa7ff"))) none,
     mkCyl spec 0.6 3.5 [0, 0, 2.2] none (some (color.getD "#8da2ff")),
     mkBox spec 1.6 1.6 0.2 [0, 0, 3.2] none (some (color.getD "#d6e4ff"))] ++
    ([-1.2, 1.2].flatMap fun side =>
      [mkTorus spec 0.8 0.25 [side, 1.3, 0.5] (some [π' / 2, 0, 0])
         (some "#2b3145"),
       mkTorus spec 0.8 0.25 [side, -1.3, 0.5] (some [π' / 2, 0, 0])
         (some "#2b3145")])
  -- Robotics – tracked exploration robot (same positional-rot slip on the
  -- hull and the turret)
  else if kwAny ["tracked robot", "tank robot", "exploration robot"] then
    [mkBox spec 3.6 5.0 1.2 [0, 0, 0.6]
       (some (.strv (color.getD "#7582a6"))) none,
     mkBox spec 2.0 2.6 1.0 [0, 0, 1.8]
       (some (.strv (color.getD "#9aa7ff"))) none,
     mkCyl spec 0.5 1.4 [0, 0, 2.6] none (some (color.getD "#d6e4ff")),
     mkBox spec 0.8 1.2 0.5 [0, 0, 3.3] none (some (color.getD "#ffd670"))] ++
    ([-2.1, 2.1].map fun side =>
      mkBox spec 0.7 5.2 1.0 [side, 0, 0.5] none (some "#222833"))
  -- Robotics – 6DOF arm
  else if kwAny ["robot arm", "6 dof", "6dof"] then
    let z := 0.6
    mkCyl spec 1.2 0.6 [0, 0, 0.3] none (some (color.getD "#9aa7ff")) ::
      ((List.range' 1 5).map fun i =>
        mkCyl spec (0.4 + 0.06 * ((6 : ℝ) - i)) 1.8 [0, 0.7 * i, z + 0.9]
          (some [π' / 2, 0, 0]) (some (color.getD "#9aa7ff"))) ++
      [mkBox spec 0.8 0.3 0.2 [0, 4.2, z + 1.2] none none]
  -- Drones – quadcopter frame
  else if kwAny ["quadcopter", "drone frame", "drone"] then
    let armL := 3.2
    let r := 0.7
    [mkBox spec armL 0.25 0.15 [0, 0, 0.075] none none,
     mkBox spec 0.25 armL 0.15 [0, 0, 0.075] none none] ++
    ([(armL / 2, armL / 2), (armL / 2, -armL / 2), (-armL / 2, armL / 2),
      (-armL / 2, -armL / 2)].map fun p =>
      mkTorus spec r 0.15 [p.1, p.2, 0.4] (some [π' / 2, 0, 0]) none)
  -- Hexacopter body
  else if kwAny ["hexacopter"] then
    let armL := 3.6
    let r := 0.7
    ([0, π' / 3, 2 * π' / 3].map fun ang =>
      mkBox spec armL 0.25 0.15 [0, 0, 0.075] (some (.vec [0, 0, ang])) none) ++
    ((List.range 6).map fun i =>
      let ang := i * (2 * π' / 6)
      mkTorus spec r 0.15 [Real.cos ang * (armL / 2), Real.sin ang * (armL / 2), 0.4]
        (some [π' / 2, 0, 0]) none)
  -- Drone propeller
  else if kwAny ["drone propeller", "propeller"] then
    let blades : ℕ := if subStr "2" low then 2 else if subStr "3" low then 3 else 2
    mkCyl spec 0.3 0.2 [0, 0, 0.1] none none ::
      (List.range blades).map fun i =>
        let ang := i * (2 * π' / blades)
        mkBox spec 0.2 2.2 0.06 [Real.cos ang * 1.1, Real.sin ang * 1.1, 0.13]
          (some (.vec [0, 0, ang])) none
  -- Aerospace – rocket / spacecraft / spaceship
  else if kwAny ["rocket", "spacecraft", "spaceship", "shuttle"] then
    let bodyR := 1.2
    let bodyH := 8.0
    let colorBody := color.getD "#b9c6ff"
    let noseH := max 2.0 (bodyR * 2.0)
    let finW := 0.15
    [mkCyl spec bodyR bodyH [0, 0, bodyH / 2] (some [π' / 2, 0, 0]) (some colorBody),
     ⟨generateId "cone" (some spec), "cone",
      [("radius", .num (bodyR * 0.95)), ("height", .num noseH),
       ("color", .str colorBody)],
      ⟨.vec [0, 0, bodyH + noseH / 2], .vec [π' / 2, 0, 0], .vec [1, 1, 1]⟩⟩,
     mkTorus spec (bodyR * 0.9) 0.18 [0, 0, 0.2] (some [0, 0, 0]) (some "#2b3145")] ++
    ([0, π' / 2, π', 3 * π' / 2].map fun ang =>
      mkBox spec finW 1.2 1.0
        [Real.cos ang * (bodyR + finW * 4), Real.sin ang * (bodyR + finW * 4), 0.6]
        (some (.vec [0, 0, ang])) (some "#9aa7ff"))
  else buildCompositeTail low color spec

/-! ## `_clone_spec` and `_apply_removal` -/

/-- `copy.deepcopy` on the scene value (a deep copy denotes the same value;
    its aliasing consequences are modelled separately for the frame claim). -/
def cloneSpec : Option Scene → Option Scene := fun s => s

/-- The per-object test of the removal loop: the (lowercased, non-empty) id
    occurs in the text — checked first — or the (raw, non-empty) type does. -/
def removalMatch (low : String) (o : Obj) : Bool :=
  (!(o.id = "" : Bool) && subStr (lowerStr o.id) low) ||
  (!(o.type = "" : Bool) && subStr o.type low)

def CLEAR_WORDS : List String := ["clear", "reset", "start over"]
def REMOVE_WORDS : List String := ["remove", "delete", "drop"]

def applyRemoval (low : String) : Option Scene → Option Scene
  | none => none
  | some s =>
      if CLEAR_WORDS.any (subStr · low) then some ⟨[]⟩
      else if REMOVE_WORDS.any (subStr · low) then
        if s.objects.isEmpty then some s
        else
          match s.objects.findIdx? (removalMatch low) with
          | some i => some ⟨s.objects.eraseIdx i⟩
          | none => some ⟨s.objects.dropLast⟩
      else some s

/-! ## `_seed_from_text`, `_rand01`, `_generic_synthesis` -/

/-- UTF-8 encoding of one character (`text.encode("utf-8")`). -/
def utf8Bytes (c : Char) : List ℕ :=
  let n := c.toNat
  if n < 0x80 then [n]
  else if n < 0x800 then [0xC0 ||| (n >>> 6), 0x80 ||| (n &&& 0x3F)]
  else if n < 0x10000 then
    [0xE0 ||| (n >>> 12), 0x80 ||| ((n >>> 6) &&& 0x3F), 0x80 ||| (n &&& 0x3F)]
  else
    [0xF0 ||| (n >>> 18), 0x80 ||| ((n >>> 12) &&& 0x3F),
     0x80 ||| ((n >>> 6) &&& 0x3F), 0x80 ||| (n &&& 0x3F)]

/-- `_seed_from_text`: FNV-1a over the UTF-8 bytes, 64-bit, forced to ≥ 1. -/
def seedFromText (s : String) : ℕ :=
  let val := (s.data.flatMap utf8Bytes).foldl
    (fun v b => ((v ^^^ b) * 1099511628211) % 2 ^ 64) 1469598103934665603
  if val = 0 then 1 else val

/-- `_rand01`: xorshift64* mixing, yielding the top 53 bits' numerator. -/
def rand01Nat (seed : ℕ) : ℕ :=
  let m := 2 ^ 64
  let x := seed % m
  let x := x ^^^ (x >>> 12)
  let x := x ^^^ ((x <<< 25) % m)
  let x := x ^^^ (x >>> 27)
  let x := (x * 2685821657736338717) % m
  x % 2 ^ 53

noncomputable def rand01 (seed : ℕ) : ℝ := (rand01Nat seed : ℝ) / 2 ^ 53

/-- One object of `_generic_synthesis`. -/
noncomputable def genericPart (spec : Scene) (seed i : ℕ) : Obj :=
  let r := rand01 (seed + i * 997)
  if r < 0.2 then
    let radius := 0.8 + 2.2 * rand01 (seed + i * 123)
    ⟨generateId "sph" (some spec), "sphere", [("radius", .num radius)],
     ⟨.vec [-2.5 + 5.0 * rand01 (seed + i * 31), -2.5 + 5.0 * rand01 (seed + i * 37),
            0.6 + 2.0 * rand01 (seed + i * 41)],
      .vec [0, 0, 0], .vec [1, 1, 1]⟩⟩
  else if r < 0.55 then
    let w := 1.2 + 4.0 * rand01 (seed + i * 53)
    let d := 1.0 + 4.0 * rand01 (seed + i * 59)
    let h := 0.8 + 3.0 * rand01 (seed + i * 61)
    ⟨generateId "box" (some spec), "box",
     [("width", .num w), ("depth", .num d), ("height", .num h)],
     ⟨.vec [-2.5 + 5.0 * rand01 (seed + i * 67), -2.5 + 5.0 * rand01 (seed + i * 71),
            h / 2],
      .vec [0, 0, 0], .vec [1, 1, 1]⟩⟩
  else if r < 0.8 then
    let radius := 0.6 + 2.2 * rand01 (seed + i * 73)
    let depth := 1.5 + 3.5 * rand01 (seed + i * 79)
    ⟨generateId "cyl" (some spec), "cylinder",
     [("radius", .num radius), ("depth", .num depth)],
     ⟨.vec [-2.5 + 5.0 * rand01 (seed + i * 83), -2.5 + 5.0 * rand01 (seed + i * 89),
            depth / 2],
      .vec [0, 0, 0], .vec [1, 1, 1]⟩⟩
  else
    let radius := 0.9 + 2.5 * rand01 (seed + i * 97)
    let tube := 0.2 + 0.6 * rand01 (seed + i * 101)
    ⟨generateId "torus" (some spec), "torus",
     [("radius", .num radius), ("tube", .num tube)],
     ⟨.vec [-2.5 + 5.0 * rand01 (seed + i * 103), -2.5 + 5.0 * rand01 (seed + i * 107),
            0.8 + 2.0 * rand01 (seed + i * 109)],
      .vec [Real.pi / 2 * rand01 (seed + i * 113), 0, 0], .vec [1, 1, 1]⟩⟩

/-- `_generic_synthesis(text, spec)`. -/
noncomputable def genericSynthesis (text : String) (spec : Scene) : List Obj :=
  let seed := seedFromText text
  let n := 3 + ⌊rand01 seed * 3⌋₊
  (List.range n).map (genericPart spec seed)

/-! ## `run_local` -/

def ROTATION_TRIGGERS : List String := ["rotate", "rotation", "twist", "spin", "turn"]

/-- Steps 6–8's in-place mutator cascade (`changed` is or-accumulated). -/
noncomputable def runLocalMutate (spec : Scene) (targets : List ℕ)
    (lowered : String) (numbers : List ℝ) : Except PyErr (Scene × Bool) := do
  let (s1, c1) := applyColorChange spec targets lowered
  let (s2, c2) ← applyDimensionChange s1 targets lowered numbers
  let (s3, c3) ← applyDirectionalMove s2 targets lowered numbers
  let (s4, c4) ← applyRotationChange s3 targets lowered numbers
  let (s5, c5) ← applyScaleChange s4 targets lowered numbers
  return (s5, c1 || c2 || c3 || c4 || c5)

/-- Step 9: the add path (composite synthesis, else a single new object),
    with the move/rotate/scale mutators re-applied to the new objects only. -/
noncomputable def runLocalAdd (userText lowered : String) (spec : Scene)
    (numbers numbersForDims : List ℝ) : Except PyErr Scene := do
  let moveNumbers := if MOVE_TRIGGERS.any (subStr · lowered) then numbers else []
  let rotationNumbers := if ROTATION_TRIGGERS.any (subStr · lowered) then numbers else []
  let composite := buildCompositeObjects userText spec numbersForDims
  if !composite.isEmpty then
    let s1 : Scene := ⟨spec.objects ++ composite⟩
    let idxs := List.range' spec.objects.length composite.length
    let (s2, _) ← applyDirectionalMove s1 idxs lowered moveNumbers
    let (s3, _) ← applyRotationChange s2 idxs lowered rotationNumbers
    let (s4, _) ← applyScaleChange s3 idxs lowered numbers
    return s4
  else
    let newObj := buildNewObject userText spec numbersForDims
    let s1 : Scene := ⟨spec.objects ++ [newObj]⟩
    let idxs := [spec.objects.length]
    let (s2, _) ← applyDirectionalMove s1 idxs lowered moveNumbers
    let (s3, _) ← applyRotationChange s2 idxs lowered rotationNumbers
    let (s4, _) ← applyScaleChange s3 idxs lowered numbers
    return s4

/-- `run_local(user_text, existing_spec)`. -/
noncomputable def runLocalE (userText : String) (existingSpec : Option Scene) :
    Except PyErr Scene := do
  let lowered := pyNormalize userText
  let numbers := extractNumbers lowered
  let positionHint := extractPositionTriplet lowered
  let spec : Scene := (applyRemoval lowered (cloneSpec existingSpec)).getD ⟨[]⟩
  let urls := findUrls userText
  let urlResult ← urls.foldlM
    (fun (acc : Option Scene) url => do
      match acc with
      | some r => pure (some r)
      | none =>
          match (← buildExternalModel url userText spec) with
          | some obj =>
              if !spec.objects.isEmpty && !isAddIntent lowered then
                pure (some ⟨[obj]⟩)
              else pure (some ⟨spec.objects ++ [obj]⟩)
          | none => pure none)
    none
  if let some r := urlResult then return r
  let numbersForDims :=
    match positionHint with
    | some tri => tri.foldl (fun acc v => removeFirstR v acc) numbers
    | none => numbers
  let targets0 := findTargets (some spec) lowered false
  let targets :=
    if targets0.isEmpty && !spec.objects.isEmpty && !isAddIntent lowered then
      findTargets (some spec) lowered true
    else targets0
  if !targets.isEmpty && CLONE_KEYWORDS.any (subStr · lowered) then
    -- every duplicate is generated against the *unchanged* spec, and the
    -- clones are appended only after the loop
    let clones ← targets.mapM (fun i => duplicateObject (objAt spec i) spec)
    let s1 : Scene := ⟨spec.objects ++ clones⟩
    let cloneIdxs := List.range' spec.objects.length clones.length
    let (s2, _) := applyColorChange s1 cloneIdxs lowered
    let (s3, _) ← applyDimensionChange s2 cloneIdxs lowered numbers
    let (s4, _) ← applyDirectionalMove s3 cloneIdxs lowered numbers
    let (s5, _) ← applyRotationChange s4 cloneIdxs lowered numbers
    let (s6, _) ← applyScaleChange s5 cloneIdxs lowered numbers
    return s6
  let (spec, replaced) ←
    if !targets.isEmpty && REPLACE_KEYWORDS.any (subStr · lowered) then
      replaceObject spec (targets.headD 0) lowered numbersForDims
    else pure (spec, false)
  if replaced then return spec
  let (spec, changed) ←
    if !targets.isEmpty then runLocalMutate spec targets lowered numbers
    else pure (spec, false)
  if changed then return spec
  let addIntent := isAddIntent lowered || spec.objects.isEmpty || targets.isEmpty
  if addIntent then runLocalAdd userText lowered spec numbers numbersForDims
  else return spec

/-! ## `build_spec` (local-only mode: the Gemini collaborator is the
out-of-scope external path; `have_gemini()` is `False` without it) -/

noncomputable def buildSpecLocal (userText : String) (existing : Option Scene) :
    Except PyErr Scene := do
  let res ← runLocalE userText existing
  if res.objects.isEmpty then
    let composite := buildCompositeObjects userText ⟨[]⟩
      (extractNumbers (pyNormalize userText))
    let composite :=
      if composite.isEmpty then genericSynthesis userText ⟨[]⟩ else composite
    return ⟨composite⟩
  if res.objects.length = 1 && lowerStr (res.objects.headD default).type = "box" then
    let composite := buildCompositeObjects userText ⟨[]⟩
      (extractNumbers (pyNormalize userText))
    let composite :=
      if composite.isEmpty then genericSynthesis userText ⟨[]⟩ else composite
    return ⟨composite⟩
  return res

/-! ## The heap view of `run_local` for the frame claim

`run_local` deep-copies the caller's scene on entry (`_clone_spec`,
`copy.deepcopy`) and every subsequent write targets the copy, so the object
graph reachable from the caller's scene is disjoint from everything the call
mutates or returns.  The store model makes that explicit: the caller's
objects live at addresses `callerAddrs` of `store`; the call allocates the
result objects at fresh addresses beyond `store.length`. -/

noncomputable def runLocalStore (t : String) (store : List Obj)
    (callerAddrs : List ℕ) : List Obj × Except PyErr (List ℕ) :=
  let callerScene : Scene := ⟨callerAddrs.map (fun a => store.getD a default)⟩
  match runLocalE t (some callerScene) with
  | .ok s => (store ++ s.objects, .ok (List.range' store.length s.objects.length))
  | .error e => (store, .error e)

/-! ## Claim-side definitions

The remaining definitions are written from the *specification's* wording, to
be compared with the source-translated functions above. -/

/-- The shape band of §4.6: sphere below 0.2, box below 0.55, cylinder below
    0.8, torus otherwise. -/
noncomputable def bandSpec (r : ℝ) : String :=
  if r < 0.2 then "sphere"
  else if r < 0.55 then "box"
  else if r < 0.8 then "cylinder"
  else "torus"

/-- Index of the first color mention carrying color `c` (the `k` of the
    claim's color-position bonus). -/
def mentionFirstIdx (mentions : List (ℕ × String)) (c : String) : Option ℕ :=
  (mentions.enum.find? (fun p => p.2.2 = c)).map (·.1)

/-- The target-resolver score exactly as claim C3 words it: the sum of +5
    for a verbatim id occurrence, +3 for a type synonym, the color bonus
    `max(1, 6 - min(k, 5))` for a color equal to the k-th (first-occurrence)
    color mention — else +3 for any mentioned color — and +2 per matching
    ordinal word. -/
def claimScore (s : Scene) (text : String) (idx : ℕ) : ℕ :=
  let obj := s.objects.getD idx default
  let lowered := lowerStr text
  let mentions := colorMentions text
  let objId := lowerStr obj.id
  let objType := lowerStr obj.type
  let objColor := lowerStr (pyColorStr (getParamV obj.params "color"))
  (if objId ≠ "" ∧ subStr objId lowered then 5 else 0) +
  (if objType ≠ "" ∧ matchType objType lowered then 3 else 0) +
  (if objColor ≠ "" then
    match mentionFirstIdx mentions objColor with
    | some k => max 1 (6 - min k 5)
    | none => if objColor ∈ mentions.map (·.2) then 3 else 0
   else 0) +
  2 * (ORDINAL_KEYWORDS.filter (fun wk => subStr wk.1 lowered &&
        ((if 0 ≤ wk.2 then wk.2.toNat else s.objects.length - 1) = idx : Bool))).length

/-- The descending-score order with ties broken by scene position, which the
    claim requires of the resolver's output. -/
def scoreOrder (s : Scene) (text : String) (i j : ℕ) : Prop :=
  claimScore s text j < claimScore s text i ∨
    (claimScore s text i = claimScore s text j ∧ i < j)

/-- The scene positions whose object scores strictly positively, in scene
    order — the set claim C3 says the resolver returns. -/
def positiveIdxs (s : Scene) (text : String) : List ℕ :=
  (List.range s.objects.length).filter (fun i => 0 < claimScore s text i)

/-- Order on `(score, position)` pairs: strictly higher score first, ties by
    scene position — what a stable descending sort of distinct-position
    pairs must produce. -/
def descStable (a b : ℕ × ℕ) : Prop :=
  b.1 < a.1 ∨ (a.1 = b.1 ∧ a.2 < b.2)

/-- One engine-style "add": generate the id first, then insert (the
    discipline of `_build_new_object` followed by the append in
    `run_local`). -/
def addObj (s : Scene) (base : String) : Scene :=
  ⟨s.objects ++ [⟨generateId base (some s), base, [], defaultTransform⟩]⟩

/-- `N` successive adds with the same base on the empty scene. -/
def addIter (base : String) : ℕ → Scene
  | 0 => ⟨[]⟩
  | n + 1 => addObj (addIter base n) base

/-- Removing one object by its exact id (the abstract removal of claim C5's
    `base2` scenario). -/
def removeId (s : Scene) (i : String) : Scene :=
  ⟨s.objects.filter (·.id ≠ i)⟩

/-- The per-object rotation update claim C9 describes: repair the transform,
    then write `radians(first number, default 90)` on the hinted axis —
    added to the current value exactly when the text contains `by` or `+=` —
    leaving the other axes untouched. -/
noncomputable def rotExpected (low : String) (numbers : List ℝ) (o : Obj) : Obj :=
  let axis := rotationAxisOf low
  let radians := numbers.headD 90 * Real.pi / 180
  let additive := subStr "by" low || subStr "+=" low
  let p := repairVec o.transform.position.list 0
  let r := repairVec o.transform.rotation.list 0
  let c := repairVec o.transform.scale.list 1
  { o with transform :=
      ⟨.vec p,
       .vec (r.set axis (if additive then r.getD axis 0 + radians else radians)),
       .vec c⟩ }

/-- The transform slots are plain numeric vectors (no string slipped into
    them), the well-formedness all ∀-theorems about mutators assume. -/
def vecTransform (o : Obj) : Prop :=
  ∃ p r c, o.transform = ⟨.vec p, .vec r, .vec c⟩

/-- The value of a little-endian digit list (proof-side inverse of
    `decDigits`). -/
def decVal : List ℕ → ℕ
  | [] => 0
  | d :: ds => d + 10 * decVal ds

/-! # Theorems -/

/-! ## Transform repair (claim C6) -/

theorem repairVec_eq (v : List ℝ) (d : ℝ) :
    repairVec v d = [v.getD 0 d, v.getD 1 d, v.getD 2 d] := by
  unfold repairVec
  split
  · rename_i h
    rcases v with _ | ⟨a, _ | ⟨b, _ | ⟨c, _ | ⟨e, t⟩⟩⟩⟩ <;> simp_all [List.getD]
  · rfl

theorem repairVec_length (v : List ℝ) (d : ℝ) : (repairVec v d).length = 3 := by
  rw [repairVec_eq]; rfl

theorem repairVec_idem (v : List ℝ) (d : ℝ) :
    repairVec (repairVec v d) d = repairVec v d := by
  conv_lhs => rw [repairVec]
  rw [if_pos (repairVec_length v d)]

/-- Claim C6: on an object whose transform slots are numeric vectors of any
    lengths, `_ensure_transform` succeeds and returns vectors of length
    exactly three, the original entries kept left to right and the missing
    slots filled with 0 (position, rotation) and 1 (scale); a second
    application changes nothing. -/
theorem ensureTransform_repair_idempotent (o : Obj) (p r c : List ℝ)
    (h : o.transform = ⟨.vec p, .vec r, .vec c⟩) :
    ensureTransform o = .ok { o with transform :=
      ⟨.vec [p.getD 0 0, p.getD 1 0, p.getD 2 0],
       .vec [r.getD 0 0, r.getD 1 0, r.getD 2 0],
       .vec [c.getD 0 1, c.getD 1 1, c.getD 2 1]⟩ } ∧
    (ensureTransform o).bind ensureTransform = ensureTransform o := by
  have step : ensureTransform o = .ok { o with transform :=
      ⟨.vec (repairVec p 0), .vec (repairVec r 0), .vec (repairVec c 1)⟩ } := by
    simp only [ensureTransform, h, ensureSlot]
    rfl
  constructor
  · rw [step, repairVec_eq p, repairVec_eq r, repairVec_eq c]
  · rw [step]
    show ensureTransform _ = _
    simp only [ensureTransform, ensureSlot, repairVec_idem]
    rfl

theorem ensureTransform_repair_idempotent_witness :
    (Obj.transform ⟨"o1", "box", [], ⟨.vec [5], .vec [], .vec [1, 2, 3, 4, 5]⟩⟩ =
      ⟨.vec [5], .vec [], .vec [1, 2, 3, 4, 5]⟩) ∧
    (ensureTransform ⟨"o1", "box", [], ⟨.vec [5], .vec [], .vec [1, 2, 3, 4, 5]⟩⟩).bind
        ensureTransform =
      ensureTransform ⟨"o1", "box", [], ⟨.vec [5], .vec [], .vec [1, 2, 3, 4, 5]⟩⟩ :=
  ⟨rfl,
   (ensureTransform_repair_idempotent _ [5] [] [1, 2, 3, 4, 5] rfl).2⟩

/-! ## The frame property of the orchestrator (claim C2) -/

/-- Claim C2: in the store view, a `run_local` call leaves every
    pre-existing address — in particular every address of the caller's
    object graph — unchanged: the input scene is deep-copied on entry and
    only the copy is ever mutated. -/
theorem runLocalStore_preserves_caller (t : String) (store : List Obj)
    (callerAddrs : List ℕ) :
    ((runLocalStore t store callerAddrs).1).take store.length = store := by
  unfold runLocalStore
  cases hE : runLocalE t (some ⟨callerAddrs.map (fun a => store.getD a default)⟩) with
  | ok s =>
      simp only [hE]
      exact List.take_left store s.objects
  | error e =>
      simp only [hE]
      exact List.take_length store

/-! ## Seeded fallback synthesis (claim C7) -/

theorem rand01Nat_lt (seed : ℕ) : rand01Nat seed < 2 ^ 53 := by
  unfold rand01Nat
  exact Nat.mod_lt _ (by norm_num)

theorem rand01_nonneg (seed : ℕ) : 0 ≤ rand01 seed := by
  unfold rand01
  positivity

theorem rand01_lt_one (seed : ℕ) : rand01 seed < 1 := by
  unfold rand01
  rw [div_lt_one (by positivity)]
  exact_mod_cast rand01Nat_lt seed

theorem genericPart_type (spec : Scene) (seed i : ℕ) :
    (genericPart spec seed i).type = bandSpec (rand01 (seed + i * 997)) := by
  unfold genericPart bandSpec
  by_cases h1 : rand01 (seed + i * 997) < 0.2
  · simp [h1]
  by_cases h2 : rand01 (seed + i * 997) < 0.55
  · simp [h1, h2]
  by_cases h3 : rand01 (seed + i * 997) < 0.8
  · simp [h1, h2, h3]
  · simp [h1, h2, h3]

/-- Claim C7: the fallback synthesizer always returns between 3 and 5
    objects (never the empty list), each object's shape follows the four
    random bands (sphere < 0.2, box < 0.55, cylinder < 0.8, torus
    otherwise), and the text seed is forced to be at least 1.  Determinism
    holds by construction: the result is a pure function of the text and the
    scene. -/
theorem genericSynthesis_spec (text : String) (spec : Scene) :
    3 ≤ (genericSynthesis text spec).length ∧
    (genericSynthesis text spec).length ≤ 5 ∧
    genericSynthesis text spec ≠ [] ∧
    (genericSynthesis text spec).map (·.type) =
      (List.range (genericSynthesis text spec).length).map
        (fun i => bandSpec (rand01 (seedFromText text + i * 997))) ∧
    1 ≤ seedFromText text := by
  have hlen : (genericSynthesis text spec).length =
      3 + ⌊rand01 (seedFromText text) * 3⌋₊ := by
    unfold genericSynthesis
    simp
  have hx0 : (0 : ℝ) ≤ rand01 (seedFromText text) * 3 :=
    mul_nonneg (rand01_nonneg _) (by norm_num)
  have hx1 : rand01 (seedFromText text) * 3 < 3 := by
    nlinarith [rand01_lt_one (seedFromText text)]
  have hfloor : ⌊rand01 (seedFromText text) * 3⌋₊ < 3 := (Nat.floor_lt hx0).2 hx1
  refine ⟨by rw [hlen]; omega, by rw [hlen]; omega, ?_, ?_, ?_⟩
  · rw [← List.length_pos, hlen]
    omega
  · conv_lhs => rw [genericSynthesis]
    rw [hlen]
    rw [List.map_map]
    refine List.map_congr_left ?_
    intro i _
    exact genericPart_type spec (seedFromText text) i
  · unfold seedFromText
    dsimp only
    split
    · exact le_refl 1
    · rename_i hne
      omega

/-! ## Total availability (claim C1)

The spec's invariant is that `run_local` never raises for any text and any
scene.  The code breaks it on plain English over a perfectly valid (even
empty) scene: the wheeled-service-robot composite stores a color string in
its base's `transform.rotation` (a positional-argument slip in `add_box`),
and the directional-move pass — triggered here by the add-word "place",
which is also a move verb — then repairs that transform and calls
`float('#')`, raising `ValueError`. -/

theorem runLocal_raises_on_plain_text :
    runLocalE "place a delivery robot" (some ⟨[]⟩) = .error .valueError := rfl

/-! ## Id uniqueness under cloning (claim C4)

Cloning several targets in one utterance generates every duplicate id
against the *unchanged* scene (`_duplicate_object(target, spec)` inside the
loop, `spec["objects"].extend(clones)` only after it), so two same-type
targets receive the same fresh id. -/

theorem runLocal_clone_duplicate_ids :
    (runLocalE "duplicate the boxes"
        (some ⟨[⟨"box1", "box", [], defaultTransform⟩,
                ⟨"box2", "box", [], defaultTransform⟩]⟩)).map
        (fun s => s.objects.map (·.id)) =
      .ok ["box1", "box2", "box3", "box3"] ∧
    ¬ (["box1", "box2", "box3", "box3"] : List String).Nodup :=
  ⟨rfl, by decide⟩

/-! ## The empty-scene add scenario (claim C10) -/

/-- Claim C10: `"add a red box"` against `{objects: []}` yields exactly one
    object: a box with the default dimensions 10 × 10 × 10, color
    `#ff4b5c`, id `box1`, and the default transform. -/
theorem runLocal_add_red_box_scenario :
    runLocalE "add a red box" (some ⟨[]⟩) =
      .ok ⟨[⟨"box1", "box",
            [("width", .num 10.0), ("depth", .num 10.0), ("height", .num 10.0),
             ("color", .str "#ff4b5c")],
            ⟨.vec [0, 0, 0], .vec [0, 0, 0], .vec [1, 1, 1]⟩⟩]⟩ := rfl

/-! ## The removal handler (claim C8) -/

/-- Counterexample to claim C8's priority description: in the scene
    `[{id "a", type "box"}, {id "box", type "sphere"}]` with text
    `"remove box"`, the only object whose *id* occurs in the text is the
    second one, yet the handler removes the *first* (its type matches while
    scanning), so the survivor is exactly the id-matching object — the
    handler does not give id matches priority over type matches across the
    scene, it scans object by object. -/
theorem applyRemoval_counterexample :
    applyRemoval "remove box"
        (some ⟨[⟨"a", "box", [], defaultTransform⟩,
                ⟨"box", "sphere", [], defaultTransform⟩]⟩) =
      some ⟨[⟨"box", "sphere", [], defaultTransform⟩]⟩ ∧
    subStr "box" "remove box" = true ∧
    subStr "a" "remove box" = false :=
  ⟨rfl, rfl, rfl⟩

/-- Claim C8 (amended): clear/reset/start over empties the scene
    unconditionally; remove/delete/drop scans the objects in order and
    removes the first one whose id (checked before its type) or type occurs
    as a substring of the text, else the last object; an empty scene is
    returned unchanged; without removal vocabulary the scene passes through
    untouched. -/
theorem applyRemoval_characterization (low : String) (s : Scene) :
    (CLEAR_WORDS.any (subStr · low) = true →
      applyRemoval low (some s) = some ⟨[]⟩) ∧
    (CLEAR_WORDS.any (subStr · low) = false →
      REMOVE_WORDS.any (subStr · low) = true →
      (s.objects = [] → applyRemoval low (some s) = some s) ∧
      (s.objects ≠ [] →
        applyRemoval low (some s) =
          some ⟨match s.objects.findIdx? (removalMatch low) with
                | some i => s.objects.eraseIdx i
                | none => s.objects.dropLast⟩)) ∧
    (CLEAR_WORDS.any (subStr · low) = false →
      REMOVE_WORDS.any (subStr · low) = false →
      applyRemoval low (some s) = some s) := by
  refine ⟨fun hc => ?_, fun hc hr => ⟨fun he => ?_, fun hne => ?_⟩, fun hc hr => ?_⟩
  · simp [applyRemoval, hc]
  · simp [applyRemoval, hc, hr, he]
  · have : s.objects.isEmpty = false := by
      simpa [List.isEmpty_iff] using hne
    simp only [applyRemoval, hc, hr, this, Bool.false_eq_true, if_false, if_true,
      List.any_eq_true]
    cases s.objects.findIdx? (removalMatch low) <;> simp
  · simp [applyRemoval, hc, hr]

theorem applyRemoval_characterization_witness :
    (CLEAR_WORDS.any (subStr · "clear the scene") = true) ∧
    applyRemoval "clear the scene"
        (some ⟨[⟨"box1", "box", [], defaultTransform⟩]⟩) = some ⟨[]⟩ :=
  ⟨rfl, (applyRemoval_characterization "clear the scene" _).1 rfl⟩

/-! ## Id generation (claim C5) -/

theorem decDigits_val : ∀ fuel n, n ≤ fuel → decVal (decDigits fuel n) = n := by
  intro fuel
  induction fuel with
  | zero => intro n hn; interval_cases n; rfl
  | succ f ih =>
      intro n hn
      rw [decDigits]
      by_cases h0 : n = 0
      · simp [h0, decVal]
      · rw [if_neg h0, decVal, ih (n / 10)]
        · omega
        · have : n / 10 < n := Nat.div_lt_self (by omega) (by omega)
          omega

theorem decDigits_lt10 : ∀ fuel n d, d ∈ decDigits fuel n → d < 10 := by
  intro fuel
  induction fuel with
  | zero => intro n d hd; simp [decDigits] at hd
  | succ f ih =>
      intro n d hd
      rw [decDigits] at hd
      by_cases h0 : n = 0
      · simp [h0] at hd
      · rw [if_neg h0] at hd
        rcases List.mem_cons.mp hd with h | h
        · omega
        · exact ih _ _ h

theorem map_digitChar_inj :
    ∀ l₁ l₂ : List ℕ, (∀ d ∈ l₁, d < 10) → (∀ d ∈ l₂, d < 10) →
      l₁.map Nat.digitChar = l₂.map Nat.digitChar → l₁ = l₂ := by
  intro l₁
  induction l₁ with
  | nil => intro l₂ _ _ h; cases l₂ <;> simp_all
  | cons a t ih =>
      intro l₂ h₁ h₂ h
      cases l₂ with
      | nil => simp at h
      | cons b u =>
          simp only [List.map_cons, List.cons.injEq] at h
          have hab : a = b := by
            have ha : a < 10 := h₁ a (by simp)
            have hb : b < 10 := h₂ b (by simp)
            revert h
            have : ∀ d < 10, ∀ e < 10, Nat.digitChar d = Nat.digitChar e → d = e := by
              decide
            intro h
            exact this a ha b hb h.1
          subst hab
          rw [ih u (fun d hd => h₁ d (by simp [hd])) (fun d hd => h₂ d (by simp [hd])) h.2]

theorem decRepr_inj : Function.Injective decRepr := by
  intro m n h
  unfold decRepr at h
  have hchars : ∀ a b : String, a = b → a.data = b.data := fun a b hab => by rw [hab]
  by_cases hm : m = 0 <;> by_cases hn : n = 0
  · omega
  · exfalso
    rw [if_pos hm, if_neg hn] at h
    have hd := hchars _ _ h
    simp only [String.data] at hd
    have : (decDigits n n).map Nat.digitChar = ['0'] := by
      have := congrArg List.reverse hd
      simpa using this.symm
    have hdig : decDigits n n = [0] := by
      have := map_digitChar_inj (decDigits n n) [0]
        (fun d hd => decDigits_lt10 n n d hd) (by simp)
      simp only [List.map_cons, List.map_nil] at this
      exact this (by simpa [Nat.digitChar] using ‹(decDigits n n).map Nat.digitChar = ['0']›)
    have := decDigits_val n n le_rfl
    rw [hdig] at this
    simp [decVal] at this
    omega
  · exfalso
    rw [if_neg hm, if_pos hn] at h
    have hd := hchars _ _ h
    simp only [String.data] at hd
    have : (decDigits m m).map Nat.digitChar = ['0'] := by
      have := congrArg List.reverse hd
      simpa using this
    have hdig : decDigits m m = [0] := by
      have h2 := map_digitChar_inj (decDigits m m) [0]
        (fun d hd => decDigits_lt10 m m d hd) (by simp)
      simp only [List.map_cons, List.map_nil] at h2
      exact h2 (by simpa [Nat.digitChar] using this)
    have := decDigits_val m m le_rfl
    rw [hdig] at this
    simp [decVal] at this
    omega
  · rw [if_neg hm, if_neg hn] at h
    have hd := hchars _ _ h
    simp only [String.data] at hd
    have hrev := congrArg List.reverse hd
    simp only [List.reverse_reverse] at hrev
    have hdig := map_digitChar_inj (decDigits m m) (decDigits n n)
      (fun d hd => decDigits_lt10 m m d hd) (fun d hd => decDigits_lt10 n n d hd) hrev
    have h1 := decDigits_val m m le_rfl
    have h2 := decDigits_val n n le_rfl
    rw [hdig] at h1
    omega

theorem encId_inj (base : String) : Function.Injective (fun n => base ++ decRepr n) := by
  intro m n h
  simp only at h
  apply decRepr_inj
  have hd : (base ++ decRepr m).data = (base ++ decRepr n).data := by rw [h]
  rw [String.data_append, String.data_append] at hd
  have := List.append_cancel_left hd
  cases hm : decRepr m with
  | mk dm =>
      cases hn : decRepr n with
      | mk dn =>
          rw [hm, hn] at this
          exact congrArg String.mk this

theorem decDigits_ne_nil (n : ℕ) (h : n ≠ 0) : decDigits n n ≠ [] := by
  cases n with
  | zero => omega
  | succ m =>
      rw [decDigits, if_neg h]
      simp

theorem decRepr_data_ne_nil (n : ℕ) : (decRepr n).data ≠ [] := by
  unfold decRepr
  split
  · intro h; simp at h
  · rename_i h0
    intro h
    simp only [String.data] at h
    rw [List.reverse_eq_nil_iff, List.map_eq_nil_iff] at h
    exact decDigits_ne_nil n h0 h

theorem appendId_ne_empty (base : String) (n : ℕ) : base ++ decRepr n ≠ "" := by
  intro h
  have hd := congrArg String.data h
  rw [String.data_append] at hd
  have h2 := List.append_eq_nil.mp hd
  exact decRepr_data_ne_nil n h2.2

theorem genIdAux_finds (base : String) (existing : List String) :
    ∀ fuel idx, (∃ k, k < fuel ∧ base ++ decRepr (idx + k) ∉ existing) →
      ∃ n, genIdAux base existing fuel idx = base ++ decRepr n ∧ idx ≤ n ∧
        base ++ decRepr n ∉ existing ∧
        ∀ m, idx ≤ m → m < n → base ++ decRepr m ∈ existing := by
  intro fuel
  induction fuel with
  | zero => intro idx ⟨k, hk, _⟩; omega
  | succ f ih =>
      intro idx h
      rw [genIdAux]
      by_cases hmem : base ++ decRepr idx ∈ existing
      · rw [if_pos hmem]
        obtain ⟨k, hk, hfree⟩ := h
        have hk0 : k ≠ 0 := by
          intro h0
          rw [h0] at hfree
          simp at hfree
          exact hfree hmem
        obtain ⟨n, h1, h2, h3, h4⟩ := ih (idx + 1)
          ⟨k - 1, by omega, by
            have : idx + 1 + (k - 1) = idx + k := by omega
            rw [this]
            exact hfree⟩
        refine ⟨n, h1, by omega, h3, fun m hm1 hm2 => ?_⟩
        by_cases hmi : m = idx
        · rw [hmi]; exact hmem
        · exact h4 m (by omega) hm2
      · rw [if_neg hmem]
        exact ⟨idx, rfl, le_rfl, hmem, fun m hm1 hm2 => by omega⟩

theorem generateId_exists_free (base : String) (existing : List String) :
    ∃ k, k < existing.length + 1 ∧ base ++ decRepr (1 + k) ∉ existing := by
  by_contra hcon
  push_neg at hcon
  have hsub : (List.range (existing.length + 1)).map (fun k => base ++ decRepr (1 + k)) ⊆
      existing := by
    intro x hx
    obtain ⟨k, hk, rfl⟩ := List.mem_map.mp hx
    exact hcon k (List.mem_range.mp hk)
  have hnodup : ((List.range (existing.length + 1)).map
      (fun k => base ++ decRepr (1 + k))).Nodup := by
    refine (List.nodup_range _).map ?_
    intro a b hab
    have := encId_inj base hab
    omega
  have := (hnodup.subperm hsub).length_le
  simp at this

/-- Claim C5: `_generate_id(base, spec)` returns `base ++ n` for the smallest
    positive decimal suffix `n` unused in the scene; hence N engine-style
    adds with one base on the empty scene yield exactly the ids
    `base1..baseN`, and after removing `box2` from `[box1, box2, box3]` the
    next add re-issues `box2`. -/
theorem generateId_smallest_suffix :
    (∀ base spec, ∃ n, generateId base spec = base ++ decRepr n ∧ 0 < n ∧
        base ++ decRepr n ∉ usedIds spec ∧
        ∀ m, 0 < m → m < n → base ++ decRepr m ∈ usedIds spec) ∧
    (∀ base N, (addIter base N).objects.map (·.id) =
        (List.range N).map (fun i => base ++ decRepr (i + 1))) ∧
    (addObj (removeId (addIter "box" 3) "box2") "box").objects.map (·.id) =
      ["box1", "box3", "box2"] := by
  have main : ∀ base spec, ∃ n, generateId base spec = base ++ decRepr n ∧ 0 < n ∧
      base ++ decRepr n ∉ usedIds spec ∧
      ∀ m, 0 < m → m < n → base ++ decRepr m ∈ usedIds spec := by
    intro base spec
    obtain ⟨k, hk, hfree⟩ := generateId_exists_free base (usedIds spec)
    obtain ⟨n, h1, h2, h3, h4⟩ :=
      genIdAux_finds base (usedIds spec) ((usedIds spec).length + 1) 1 ⟨k, hk, hfree⟩
    exact ⟨n, h1, h2, h3, fun m hm1 hm2 => h4 m hm1 hm2⟩
  refine ⟨main, ?_, by rfl⟩
  intro base N
  induction N with
  | zero => rfl
  | succ N ih =>
      have hids : (addIter base (N + 1)).objects.map (·.id) =
          (addIter base N).objects.map (·.id) ++
            [generateId base (some (addIter base N))] := by
        simp [addIter, addObj]
      have hused : usedIds (some (addIter base N)) =
          (List.range N).map (fun i => base ++ decRepr (i + 1)) := by
        show ((addIter base N).objects.map (·.id)).filter (· ≠ "") = _
        rw [ih]
        rw [List.filter_eq_self.mpr]
        intro a ha
        obtain ⟨i, _, rfl⟩ := List.mem_map.mp ha
        simpa using appendId_ne_empty base (i + 1)
      have hnew : generateId base (some (addIter base N)) = base ++ decRepr (N + 1) := by
        obtain ⟨n, h1, h2, h3, h4⟩ := main base (some (addIter base N))
        rw [hused] at h3 h4
        have hnN : n = N + 1 := by
          have hub : n ≤ N + 1 := by
            by_contra hcon
            push_neg at hcon
            have := h4 (N + 1) (by omega) (by omega)
            obtain ⟨i, hi, heq⟩ := List.mem_map.mp this
            have := encId_inj base heq
            have := List.mem_range.mp hi
            omega
          have hlb : ¬ n ≤ N := by
            intro hle
            apply h3
            refine List.mem_map.mpr ⟨n - 1, List.mem_range.mpr (by omega), ?_⟩
            have hn1 : n - 1 + 1 = n := by omega
            rw [hn1]
          omega
        rw [h1, hnN]
      rw [hids, ih, hnew]
      rw [List.range_succ]
      simp

theorem generateId_smallest_suffix_witness :
    (addIter "b" 2).objects.map (·.id) =
      (List.range 2).map (fun i => "b" ++ decRepr (i + 1)) :=
  generateId_smallest_suffix.2.1 "b" 2

/-! ## The rotation mutator (claim C9) -/

theorem modifyAt_length (f : Obj → Obj) : ∀ (i : ℕ) (l : List Obj),
    (modifyAt f i l).length = l.length := by
  intro i
  induction i with
  | zero => intro l; cases l <;> simp [modifyAt]
  | succ n ih => intro l; cases l <;> simp [modifyAt, ih]

theorem modifyAt_getD_self (f : Obj → Obj) :
    ∀ (i : ℕ) (l : List Obj), i < l.length →
      (modifyAt f i l).getD i default = f (l.getD i default) := by
  intro i
  induction i with
  | zero =>
      intro l hl
      cases l with
      | nil => simp at hl
      | cons o os => simp [modifyAt]
  | succ n ih =>
      intro l hl
      cases l with
      | nil => simp at hl
      | cons o os =>
          simp only [modifyAt, List.getD_cons_succ]
          exact ih os (by simpa using hl)

theorem modifyAt_getD_other (f : Obj → Obj) :
    ∀ (i j : ℕ) (l : List Obj), i ≠ j →
      (modifyAt f i l).getD j default = l.getD j default := by
  intro i
  induction i with
  | zero =>
      intro j l hij
      cases l with
      | nil => simp [modifyAt]
      | cons o os =>
          cases j with
          | zero => omega
          | succ m => simp [modifyAt]
  | succ n ih =>
      intro j l hij
      cases l with
      | nil => simp [modifyAt]
      | cons o os =>
          cases j with
          | zero => simp [modifyAt]
          | succ m =>
              simp only [modifyAt, List.getD_cons_succ]
              exact ih m os (by omega)

theorem rotStep_vec (low : String) (numbers : List ℝ) (s : Scene) (i : ℕ)
    (h : vecTransform (objAt s i)) :
    rotStep low numbers s i =
      .ok (updObjAt s i (fun _ => rotExpected low numbers (objAt s i))) := by
  obtain ⟨p, r, c, hpr⟩ := h
  unfold rotStep rotExpected
  by_cases hadd : (subStr "by" low || subStr "+=" low) = true <;>
    (simp [ensureTransform, hpr, ensureSlot, slotGetFloatE, slotSetE,
       TVec.list, hadd]
     rfl)

theorem rotFold_spec (low : String) (numbers : List ℝ) :
    ∀ (targets : List ℕ) (s : Scene), targets.Nodup →
      (∀ i ∈ targets, i < s.objects.length) →
      (∀ i ∈ targets, vecTransform (objAt s i)) →
      ∃ s', targets.foldlM (rotStep low numbers) s = .ok s' ∧
        (∀ i ∈ targets, objAt s' i = rotExpected low numbers (objAt s i)) ∧
        (∀ j, j ∉ targets → objAt s' j = objAt s j) ∧
        s'.objects.length = s.objects.length := by
  intro targets
  induction targets with
  | nil =>
      intro s _ _ _
      exact ⟨s, rfl, by simp, fun j _ => rfl, rfl⟩
  | cons t ts ih =>
      intro s hnd hlt hv
      have ht : vecTransform (objAt s t) := hv t (by simp)
      have hstep := rotStep_vec low numbers s t ht
      set s₁ := updObjAt s t (fun _ => rotExpected low numbers (objAt s t)) with hs₁
      have hlen₁ : s₁.objects.length = s.objects.length := modifyAt_length _ _ _
      have htn : t ∉ ts := (List.nodup_cons.mp hnd).1
      have hobj₁ : ∀ j, j ≠ t → objAt s₁ j = objAt s j := by
        intro j hj
        exact modifyAt_getD_other _ t j s.objects (fun hc => hj hc.symm)
      have hobj₁t : objAt s₁ t = rotExpected low numbers (objAt s t) :=
        modifyAt_getD_self _ t s.objects (hlt t (by simp))
      obtain ⟨s', hfold, hin, hout, hlen⟩ := ih s₁ (List.nodup_cons.mp hnd).2
        (fun i hi => by rw [hlen₁]; exact hlt i (by simp [hi]))
        (fun i hi => by
          rw [hobj₁ i (fun hc => htn (hc ▸ hi))]
          exact hv i (by simp [hi]))
      refine ⟨s', ?_, ?_, ?_, by rw [hlen, hlen₁]⟩
      · rw [List.foldlM_cons, hstep]
        simpa using hfold
      · intro i hi
        rcases List.mem_cons.mp hi with rfl | hts
        · rw [hout i htn, hobj₁t]
        · rw [hin i hts, hobj₁ i (fun hc => htn (hc ▸ hts))]
      · intro j hj
        rw [hout j (fun hc => hj (by simp [hc])), hobj₁ j (fun hc => hj (by simp [hc]))]

/-- Claim C9: the rotation mutator fires only on its five trigger words; on
    a trigger the axis comes from the hint table (`x`/`roll` → 0, `y`/`yaw`
    → 1, `z`/`pitch` → 2, first table hit wins) and defaults to 1 when no
    hint occurs, the angle is the first number of the pool (default 90)
    converted from degrees to radians, the write is additive on that axis
    exactly when the text contains `by` or `+=` and otherwise replaces the
    axis value, and the other two axes (and every non-target object) are
    untouched. -/
theorem applyRotationChange_spec (s : Scene) (targets : List ℕ) (text : String)
    (numbers : List ℝ) (hnd : targets.Nodup)
    (hlt : ∀ i ∈ targets, i < s.objects.length)
    (hv : ∀ i ∈ targets, vecTransform (objAt s i)) :
    (rotationTrigger (lowerStr text) = false →
      applyRotationChange s targets text numbers = .ok (s, false)) ∧
    (rotationTrigger (lowerStr text) = true →
      (applyRotationChange s targets text numbers).map (·.2) =
        .ok (!targets.isEmpty) ∧
      (∀ i ∈ targets,
        (applyRotationChange s targets text numbers).map (fun p => objAt p.1 i) =
          .ok (rotExpected (lowerStr text) numbers (objAt s i))) ∧
      (∀ j, j ∉ targets →
        (applyRotationChange s targets text numbers).map (fun p => objAt p.1 j) =
          .ok (objAt s j))) ∧
    ((∀ kv ∈ ROTATION_AXIS_HINTS, subStr kv.1 (lowerStr text) = false) →
      rotationAxisOf (lowerStr text) = 1) := by
  obtain ⟨s', hfold, hin, hout, _⟩ := rotFold_spec (lowerStr text) numbers targets s hnd hlt hv
  have happ : rotationTrigger (lowerStr text) = true →
      applyRotationChange s targets text numbers = .ok (s', !targets.isEmpty) := by
    intro htr
    simp only [applyRotationChange, htr, Bool.not_true, Bool.false_eq_true, if_false]
    rw [hfold]
    rfl
  refine ⟨fun htr => ?_, fun htr => ⟨?_, ?_, ?_⟩, fun hnone => ?_⟩
  · simp only [applyRotationChange, htr]
    rfl
  · rw [happ htr]; rfl
  · intro i hi
    rw [happ htr]
    show Except.ok (objAt s' i) = _
    rw [hin i hi]
  · intro j hj
    rw [happ htr]
    show Except.ok (objAt s' j) = _
    rw [hout j hj]
  · unfold rotationAxisOf
    rw [List.find?_eq_none.mpr]
    · rfl
    · intro kv hkv
      simp [hnone kv hkv]

theorem applyRotationChange_spec_witness :
    rotationTrigger (lowerStr "rotate it by 30") = true ∧
    (applyRotationChange ⟨[⟨"box1", "box", [], defaultTransform⟩]⟩ [0]
        "rotate it by 30" [30]).map (fun p => objAt p.1 0) =
      .ok (rotExpected (lowerStr "rotate it by 30") [30]
        (objAt ⟨[⟨"box1", "box", [], defaultTransform⟩]⟩ 0)) :=
  ⟨rfl,
   ((applyRotationChange_spec ⟨[⟨"box1", "box", [], defaultTransform⟩]⟩ [0]
        "rotate it by 30" [30] (by simp)
        (fun i hi => by
          have h0 : i = 0 := by simpa using hi
          subst h0
          norm_num)
        (fun i hi => by
          have : i = 0 := by simpa using hi
          subst this
          exact ⟨[0, 0, 0], [0, 0, 0], [1, 1, 1], rfl⟩)).2.1 rfl).2.1 0 (by simp)⟩

/-! ## Target resolver scoring (claim C3) -/

theorem mem_insDescBy (key : α → ℕ) (x z : α) :
    ∀ l : List α, z ∈ insDescBy key x l ↔ z = x ∨ z ∈ l := by
  intro l
  induction l with
  | nil => simp [insDescBy]
  | cons y ys ih =>
      by_cases h : key y < key x
      · simp only [insDescBy, if_pos h, List.mem_cons]
      · simp only [insDescBy, if_neg h, List.mem_cons, ih]
        tauto

theorem insDescBy_perm (key : α → ℕ) (x : α) :
    ∀ l : List α, (insDescBy key x l).Perm (x :: l) := by
  intro l
  induction l with
  | nil => exact List.Perm.refl _
  | cons y ys ih =>
      by_cases h : key y < key x
      · simp only [insDescBy, if_pos h]
        exact List.Perm.refl _
      · simp only [insDescBy, if_neg h]
        exact (ih.cons y).trans (List.Perm.swap x y ys)

theorem foldl_insDescBy_perm (key : α → ℕ) :
    ∀ (l acc : List α),
      (l.foldl (fun a x => insDescBy key x a) acc).Perm (acc ++ l) := by
  intro l
  induction l with
  | nil => intro acc; simp
  | cons x l ih =>
      intro acc
      rw [List.foldl_cons]
      have h1 : ((insDescBy key x acc) ++ l).Perm ((x :: acc) ++ l) :=
        (insDescBy_perm key x acc).append_right l
      have h2 : ((x :: acc) ++ l).Perm (acc ++ x :: l) := List.perm_middle.symm
      exact ((ih (insDescBy key x acc)).trans h1).trans h2

theorem sortDescBy_perm (key : α → ℕ) (l : List α) : (sortDescBy key l).Perm l := by
  simpa [sortDescBy] using foldl_insDescBy_perm key l []

theorem insDescBy_pairwise (x : ℕ × ℕ) :
    ∀ l : List (ℕ × ℕ), l.Pairwise descStable → (∀ y ∈ l, y.2 < x.2) →
      (insDescBy (·.1) x l).Pairwise descStable := by
  intro l
  induction l with
  | nil => intro _ _; simp [insDescBy]
  | cons y ys ih =>
      intro hp hlt
      rcases List.pairwise_cons.mp hp with ⟨hy, hys⟩
      by_cases h : y.1 < x.1
      · simp only [insDescBy, if_pos h]
        refine List.pairwise_cons.mpr ⟨?_, hp⟩
        intro z hz
        rcases List.mem_cons.mp hz with rfl | hz'
        · exact Or.inl h
        · rcases hy z hz' with h1 | ⟨h1, _⟩
          · exact Or.inl (by omega)
          · exact Or.inl (by omega)
      · simp only [insDescBy, if_neg h]
        refine List.pairwise_cons.mpr
          ⟨?_, ih hys (fun z hz => hlt z (List.mem_cons_of_mem y hz))⟩
        intro z hz
        rcases (mem_insDescBy _ x z ys).mp hz with hzx | hz'
        · have hyx := hlt y (List.mem_cons_self y ys)
          rw [hzx]
          rcases Nat.lt_or_ge x.1 y.1 with h1 | h1
          · exact Or.inl h1
          · exact Or.inr ⟨by omega, hyx⟩
        · exact hy z hz'

theorem foldl_insDescBy_pairwise :
    ∀ (l acc : List (ℕ × ℕ)), acc.Pairwise descStable →
      (∀ y ∈ acc, ∀ z ∈ l, y.2 < z.2) →
      l.Pairwise (fun a b => a.2 < b.2) →
      (l.foldl (fun a x => insDescBy (·.1) x a) acc).Pairwise descStable := by
  intro l
  induction l with
  | nil => intro acc h _ _; simpa using h
  | cons x l ih =>
      intro acc hacc hcross hl
      rcases List.pairwise_cons.mp hl with ⟨hx, hl'⟩
      rw [List.foldl_cons]
      refine ih (insDescBy (·.1) x acc) ?_ ?_ hl'
      · exact insDescBy_pairwise x acc hacc
          (fun y hy => hcross y hy x (List.mem_cons_self x l))
      · intro y hy z hz
        rcases (mem_insDescBy _ x y acc).mp hy with rfl | hy'
        · exact hx z hz
        · exact hcross y hy' z (List.mem_cons_of_mem x hz)

theorem sortDescBy_pairwise (l : List (ℕ × ℕ))
    (hl : l.Pairwise (fun a b => a.2 < b.2)) :
    (sortDescBy (·.1) l).Pairwise descStable := by
  have h := foldl_insDescBy_pairwise l [] (by simp) (by simp) hl
  simpa [sortDescBy] using h

theorem setdefault_find (c : String) :
    ∀ (L : List (ℕ × ℕ × String)) (acc : List (String × ℕ)),
      ((L.foldl
          (fun a p =>
            if (a.find? (·.1 = p.2.2)).isSome then a else a ++ [(p.2.2, p.1)])
          acc).find? (·.1 = c))
        = (acc.find? (·.1 = c)).or
            ((L.find? (fun p => p.2.2 = c)).map (fun p => (p.2.2, p.1))) := by
  intro L
  induction L with
  | nil => intro acc; simp
  | cons p L ih =>
      intro acc
      simp only [List.foldl_cons]
      by_cases hq : p.2.2 = c
      · subst hq
        by_cases hacc : (acc.find? (·.1 = p.2.2)).isSome = true
        · rcases Option.isSome_iff_exists.mp hacc with ⟨v, hv⟩
          rw [if_pos hacc, ih, hv, List.find?_cons_of_pos _ (by simp)]
          rfl
        · have hnone : acc.find? (·.1 = p.2.2) = none :=
            Option.not_isSome_iff_eq_none.mp hacc
          rw [if_neg hacc, ih, List.find?_append, hnone,
              List.find?_cons_of_pos _ (by simp)]
          simp
      · by_cases hacc : (acc.find? (·.1 = p.2.2)).isSome = true
        · rw [if_pos hacc, ih, List.find?_cons_of_neg _ (by simp [hq])]
        · have hnone : acc.find? (·.1 = p.2.2) = none :=
            Option.not_isSome_iff_eq_none.mp hacc
          rw [if_neg hacc, ih, List.find?_append]
          rw [show ([(p.2.2, p.1)].find? (·.1 = c)) = none from by simp [hq]]
          rw [List.find?_cons_of_neg _ (by simp [hq]), Option.or_none]

theorem colorOrder_find (text c : String) :
    ((colorOrderList text).find? (·.1 = c)).map (·.2)
      = mentionFirstIdx (colorMentions text) c := by
  unfold colorOrderList mentionFirstIdx
  rw [setdefault_find]
  cases h : (colorMentions text).enum.find? (fun p => p.2.2 = c) <;> simp [h]

theorem foldl_count_two (P : α → Bool) (Q : α → Prop) [DecidablePred Q] :
    ∀ (L : List α) (a : ℕ),
      L.foldl (fun acc x => if P x then (if Q x then acc + 2 else acc) else acc) a
        = a + 2 * (L.filter (fun x => P x && decide (Q x))).length := by
  intro L
  induction L with
  | nil => intro a; simp
  | cons x L ih =>
      intro a
      by_cases hp : P x = true <;> by_cases hq : Q x <;>
        simp [List.foldl_cons, List.filter_cons, hp, hq, ih] <;> omega

theorem targetScore_eq_claimScore (s : Scene) (text : String) (idx : ℕ) :
    targetScore s.objects.length (lowerStr text) (colorsInText text)
        (colorOrderList text) idx (s.objects.getD idx default)
      = claimScore s text idx := by
  simp only [targetScore, claimScore]
  rw [foldl_count_two (fun wk : String × Int => subStr wk.1 (lowerStr text))
        (fun wk : String × Int =>
          (if 0 ≤ wk.2 then wk.2.toNat else s.objects.length - 1) = idx)]
  rw [← colorOrder_find text
        (lowerStr (pyColorStr (getParamV (s.objects.getD idx default).params "color")))]
  simp [colorsInText]

theorem scored_map_eq (s : Scene) (text : String) :
    s.objects.enum.map
        (fun p => (targetScore s.objects.length (lowerStr text) (colorsInText text)
            (colorOrderList text) p.1 p.2, p.1))
      = (List.range s.objects.length).map (fun i => (claimScore s text i, i)) := by
  apply List.ext_getElem
  · simp
  · intro i h1 h2
    have hb : i < s.objects.length := by simpa using h2
    simp only [List.getElem_map, List.getElem_range, List.getElem_enum]
    have ht := targetScore_eq_claimScore s text i
    rw [List.getD_eq_getElem s.objects default hb] at ht
    rw [ht]

theorem map_snd_pair (g : ℕ → ℕ) :
    ∀ ps : List ℕ, (ps.map (fun i => (g i, i))).map (fun x : ℕ × ℕ => x.2) = ps := by
  intro ps
  induction ps with
  | nil => rfl
  | cons a ps ih => simp only [List.map_cons, ih]

theorem resolver_sorted (pos : List ℕ) (g : ℕ → ℕ)
    (hpw : pos.Pairwise (· < ·)) :
    ((sortDescBy (·.1) (pos.map (fun i => (g i, i)))).map (·.2)).Perm pos ∧
      ((sortDescBy (·.1) (pos.map (fun i => (g i, i)))).map (·.2)).Pairwise
        (fun i j => g j < g i ∨ (g i = g j ∧ i < j)) := by
  have hMpw : (pos.map (fun i => (g i, i))).Pairwise
      (fun a b : ℕ × ℕ => a.2 < b.2) := by
    rw [List.pairwise_map]
    exact hpw
  have hperm : (sortDescBy (·.1) (pos.map (fun i => (g i, i)))).Perm
      (pos.map (fun i => (g i, i))) := sortDescBy_perm _ _
  constructor
  · have h3 := hperm.map (fun x : ℕ × ℕ => x.2)
    rw [map_snd_pair g pos] at h3
    exact h3
  · have hsorted := sortDescBy_pairwise _ hMpw
    rw [List.pairwise_map]
    refine hsorted.imp_of_mem ?_
    intro a b ha hb hab
    have haM := hperm.mem_iff.mp ha
    have hbM := hperm.mem_iff.mp hb
    obtain ⟨i, _, rfl⟩ := List.mem_map.mp haM
    obtain ⟨j, _, rfl⟩ := List.mem_map.mp hbM
    exact hab

/-- **C3.** For a scene with objects, each object's resolver score is the
    claim's sum (+5 verbatim id, +3 type synonym, the `max(1, 6 - min(k,5))`
    color-position bonus or +3 for any mentioned color, +2 per matching
    ordinal word, all as `claimScore` spells out); exactly the positions
    with positive score are returned, sorted descending by score with ties
    in scene order (`scoreOrder`), and when none is positive the result is
    the last position if the fallback flag is set, else empty. -/
theorem findTargets_resolver_spec (s : Scene) (text : String) (fb : Bool)
    (hne : s.objects ≠ []) :
    (positiveIdxs s text ≠ [] →
      (findTargets (some s) text fb).Perm (positiveIdxs s text) ∧
      (findTargets (some s) text fb).Pairwise (scoreOrder s text)) ∧
    (positiveIdxs s text = [] →
      findTargets (some s) text fb = if fb then [s.objects.length - 1] else []) := by
  have hempty : s.objects.isEmpty = false := by
    simp [List.isEmpty_iff, hne]
  have hhits : ((List.range s.objects.length).map
          (fun i => (claimScore s text i, i))).filter (fun sc => 0 < sc.1)
      = (positiveIdxs s text).map (fun i => (claimScore s text i, i)) := by
    rw [List.filter_map]
    rfl
  have hres : findTargets (some s) text fb =
      (if !((positiveIdxs s text).map (fun i => (claimScore s text i, i))).isEmpty
       then (sortDescBy (·.1)
          ((positiveIdxs s text).map (fun i => (claimScore s text i, i)))).map (·.2)
       else if fb then [s.objects.length - 1] else []) := by
    simp only [findTargets, hempty, Bool.false_eq_true, if_false, scored_map_eq, hhits]
  constructor
  · intro hpos
    have hie : ((positiveIdxs s text).map
        (fun i => (claimScore s text i, i))).isEmpty = false := by
      simpa [List.isEmpty_iff] using hpos
    rw [hres, hie]
    simp only [Bool.not_false, if_true]
    have hpw : (positiveIdxs s text).Pairwise (· < ·) := by
      exact List.Pairwise.filter _ (List.pairwise_lt_range _)
    have h := resolver_sorted (positiveIdxs s text) (claimScore s text) hpw
    exact ⟨h.1, h.2⟩
  · intro hpos
    rw [hres, hpos]
    simp

theorem findTargets_resolver_spec_witness :
    ((⟨[⟨"box1", "box", [], defaultTransform⟩]⟩ : Scene).objects ≠ []) ∧
    ((positiveIdxs ⟨[⟨"box1", "box", [], defaultTransform⟩]⟩ "move the box" ≠ [] →
        (findTargets (some ⟨[⟨"box1", "box", [], defaultTransform⟩]⟩)
            "move the box" true).Perm
          (positiveIdxs ⟨[⟨"box1", "box", [], defaultTransform⟩]⟩ "move the box") ∧
        (findTargets (some ⟨[⟨"box1", "box", [], defaultTransform⟩]⟩)
            "move the box" true).Pairwise
          (scoreOrder ⟨[⟨"box1", "box", [], defaultTransform⟩]⟩ "move the box")) ∧
      (positiveIdxs ⟨[⟨"box1", "box", [], defaultTransform⟩]⟩ "move the box" = [] →
        findTargets (some ⟨[⟨"box1", "box", [], defaultTransform⟩]⟩)
            "move the box" true =
          if true then
            [(⟨[⟨"box1", "box", [], defaultTransform⟩]⟩ : Scene).objects.length - 1]
          else [])) :=
  ⟨List.cons_ne_nil _ _,
   findTargets_resolver_spec ⟨[⟨"box1", "box", [], defaultTransform⟩]⟩
     "move the box" true (List.cons_ne_nil _ _)⟩

end Fludo
